import Mathlib

/-!
The hybrid envelope decryption pipeline of cp-migration-api.

A shallow embedding of `src/api/auth.go` and of the handlers of
`src/api/s3.go` (package `api`), with the model types of
`src/model/encodeModel.go` and `src/model/storageConfig.go`, followed by
theorems about them.

Conventions of the embedding

* a Go `[]byte` is a `List` of bytes, a byte is a natural number below 256;
* a Go `int` is 64 bits wide; sums and differences are reduced with
  `wrapInt64`;
* a Go function returning `([]byte, error)` returns `Except String Bytes`,
  the string being the text of the error; the `nil` slice returned next to an
  error carries no data;
* `decodePayload` returns the pair of its two results, the value of type `T`
  and the error (`none` for `nil`), so that the zero value returned next to
  an error is visible;
* a Go function that may `panic` returns an `Outcome`;
* functions of the Go standard library (base64, encoding/json, the
  cryptographic primitives) are parameters of the embedding.
-/

namespace Api

/-- One byte. -/
abbrev Byte := Fin 256

/-- A Go byte slice. -/
abbrev Bytes := List Byte

deriving instance DecidableEq for Except

/-- The result of running a Go function that may abort with `panic`. -/
inductive Outcome (α : Type) where
  | returned (a : α)
  | panicked
  deriving DecidableEq, Repr

/-! ## PKCS#7 padding removal (`auth.go`, `pkcs7Unpad`) -/

/-- The function `pkcs7Unpad` of `auth.go`. The `for ... range` loop over
`data[length-paddingLen:]` returns at the first byte that differs from
`paddingLen`; it is the `any` below. -/
def pkcs7Unpad (data : Bytes) : Except String Bytes :=
  let length := data.length
  if length = 0 then
    .error "unpad: input is empty"
  else
    let paddingLen : Nat := (data.getD (length - 1) 0).val
    if paddingLen > length ∨ paddingLen = 0 then
      .error "unpad: invalid padding"
    else if (data.drop (length - paddingLen)).any (fun b => b.val != paddingLen) then
      .error "unpad: incorrect padding bytes"
    else
      .ok (data.take (length - paddingLen))

/-- Modelled from the spec: the sender's PKCS#7 padding for block size `k`,
which is not part of this repository. It appends `n = k - (len b mod k)`
bytes, each of value `n`. -/
def pkcs7Pad (k : Nat) (b : Bytes) : Bytes :=
  let n := k - b.length % k
  b ++ List.replicate n (Fin.ofNat n)

/-! ## Freshness check (`auth.go`, `vaildTimestampCheck`) -/

/-- Value of a run of decimal digits read left to right, `none` at the first
character that is not a digit (the digit loop of `strconv`). -/
def digitsValue : List Char → Nat → Option Nat
  | [], acc => some acc
  | c :: cs, acc =>
    if c.isDigit then digitsValue cs (acc * 10 + (c.toNat - 48)) else none

/-- The standard library function `strconv.Atoi` for a 64-bit `int`: an
optional sign, then at least one decimal digit and nothing else, the value
within the range of `int`. The result `none` stands for a non-nil error
(`ErrSyntax` or `ErrRange`). -/
def Atoi (s : String) : Option Int :=
  match s.data with
  | [] => none
  | c :: cs =>
    let ds := if c = '-' ∨ c = '+' then cs else c :: cs
    if ds.isEmpty then none
    else
      match digitsValue ds 0 with
      | none => none
      | some n =>
        if c = '-' then
          if n ≤ 2 ^ 63 then some (-(n : Int)) else none
        else
          if n < 2 ^ 63 then some (n : Int) else none

/-- Reduction of an integer to the range of a 64-bit signed `int`
(two's-complement wrap-around). -/
def wrapInt64 (z : Int) : Int :=
  (z + 2 ^ 63) % 2 ^ 64 - 2 ^ 63

/-- The function `vaildTimestampCheck` of `auth.go`. Both `panic(err)`
branches give `panicked`. -/
def vaildTimestampCheck (originTimestamp : String) (currentTimestamp : String) :
    Outcome Bool :=
  match Atoi currentTimestamp with
  | none => .panicked
  | some current =>
    match Atoi originTimestamp with
    | none => .panicked
    | some original =>
      if wrapInt64 (current - original) > 5 * 60 * 1000 then
        .returned false
      else
        .returned true

/-- A non-empty string of decimal digits. -/
def isDecimal (s : String) : Bool :=
  !s.data.isEmpty && s.data.all Char.isDigit

/-- The number a string of decimal digits denotes. -/
def decimalValue (s : String) : Nat :=
  s.data.foldl (fun acc c => acc * 10 + (c.toNat - 48)) 0

/-! ## Model types (`model/encodeModel.go`) -/

/-- The struct `PayloadModelWithoutHMAC[T]`. -/
structure PayloadModelWithoutHMAC (T : Type) where
  Data : T
  Timestamp : String
  deriving DecidableEq, Repr

/-- The struct `PayloadModelWithHMAC[T]`. -/
structure PayloadModelWithHMAC (T : Type) where
  Data : T
  Timestamp : String
  Hmac_data : String
  deriving DecidableEq, Repr

/-- The struct `HybridPayload`. -/
structure HybridPayload where
  EncryptedKey : String
  IV : String
  EncryptedData : String
  deriving DecidableEq, Repr

/-! ## The decoding pipeline (`auth.go`, `decodePayload`) -/

/-- The standard library calls made by `decodePayload` for payload type `T`.

* `base64Decode` is `base64.StdEncoding.DecodeString`, `none` for an error;
* `jsonUnmarshalWithHMAC b` is `json.Unmarshal(b, &v)` for a zero
  `v : PayloadModelWithHMAC[T]`: the value left in `v`, and the error
  (`none` for `nil`); likewise `jsonUnmarshalWithoutHMAC`;
* `jsonMarshal` is `json.Marshal`, `none` for an error. -/
structure StdLib (T : Type) where
  base64Decode : String → Option Bytes
  jsonUnmarshalWithHMAC : Bytes → PayloadModelWithHMAC T × Option String
  jsonUnmarshalWithoutHMAC : Bytes → PayloadModelWithoutHMAC T × Option String
  jsonMarshal : PayloadModelWithoutHMAC T → Option Bytes

/-- The five package variables of `auth.go` through which `decodePayload`
calls its stages (`rsaDecodeFunc`, `aesDecryptFunc`, `currentTimestampFunc`,
`hmacEncodeFunc`, `vaildTimestampCheckFunc`). -/
structure Stages where
  rsaDecodeFunc : Bytes → Outcome (Except String Bytes)
  aesDecryptFunc : Bytes → Bytes → Bytes → Outcome (Except String Bytes)
  currentTimestampFunc : Unit → String
  hmacEncodeFunc : Bytes → String
  vaildTimestampCheckFunc : String → String → Outcome Bool

/-- The function `decodePayload[T]` of `auth.go`. A return `(t, err)` is the
pair of the value and the error text, `none` for `nil`; `default` is the zero
value of `T` (`var t T`). The errors of both `json.Unmarshal` calls are
dropped, as in the source. -/
def decodePayload {T : Type} [Inhabited T] (L : StdLib T) (S : Stages)
    (payload : HybridPayload) : Outcome (T × Option String) :=
  let currentTimestamp := S.currentTimestampFunc ()
  match L.base64Decode payload.EncryptedData with
  | none => .returned (default, some "base64 decode failed")
  | some encodedAesData =>
    match L.base64Decode payload.EncryptedKey with
    | none => .returned (default, some "base64 decode failed")
    | some encodedAesKey =>
      match L.base64Decode payload.IV with
      | none => .returned (default, some "base64 decode failed")
      | some iv =>
        match S.rsaDecodeFunc encodedAesKey with
        | .panicked => .panicked
        | .returned (.error err) => .returned (default, some err)
        | .returned (.ok decodedAesKey) =>
          match S.aesDecryptFunc encodedAesData decodedAesKey iv with
          | .panicked => .panicked
          | .returned (.error err) => .returned (default, some err)
          | .returned (.ok decodedData) =>
            let PayloadModelWithHMAC := (L.jsonUnmarshalWithHMAC decodedData).1
            let hmac_data := PayloadModelWithHMAC.Hmac_data
            let payloadModelWithoutHMAC := (L.jsonUnmarshalWithoutHMAC decodedData).1
            match L.jsonMarshal payloadModelWithoutHMAC with
            | none => .returned (default, some "json parsing failed")
            | some byt =>
              if S.hmacEncodeFunc byt ≠ hmac_data then
                .returned (default, some "integrity verification failed")
              else
                match S.vaildTimestampCheckFunc payloadModelWithoutHMAC.Timestamp
                    currentTimestamp with
                | .panicked => .panicked
                | .returned false => .returned (default, some "your request has expired")
                | .returned true => .returned (PayloadModelWithHMAC.Data, none)

/-! ## Production integrity stage (`auth.go`, `hmacEncode`) -/

/-- The fields of `config.Env` (`config/env.go`). -/
structure EnvConfigs where
  HmacKey : String
  PrivateKey : String
  IsEncryption : String
  deriving DecidableEq, Repr

/-- The lower-case hexadecimal digit of a number below 16. -/
def hexDigit (n : Nat) : Char :=
  "0123456789abcdef".data.getD n '0'

/-- The standard library function `hex.EncodeToString`: two lower-case
hexadecimal digits for each byte. -/
def hexEncodeToString (src : Bytes) : String :=
  String.mk (src.flatMap fun b => [hexDigit (b.val / 16), hexDigit (b.val % 16)])

/-- The function `hmacEncode` of `auth.go`. The parameter `hmacSha256` is the
HMAC-SHA256 digest of a message under a key (`hmac.New(sha256.New, key)`,
`Write`, `Sum(nil)`). -/
def hmacEncode (hmacSha256 : String → Bytes → Bytes) (Env : EnvConfigs)
    (json : Bytes) : String :=
  let signature := hexEncodeToString (hmacSha256 Env.HmacKey json)
  signature

/-- The stages as they are wired at start-up for the integrity and freshness
checks (`hmacEncodeFunc = hmacEncode`,
`vaildTimestampCheckFunc = vaildTimestampCheck`); key unwrap, decryption and
the clock are those of `S`. -/
def Stages.withProductionChecks (S : Stages) (hmacSha256 : String → Bytes → Bytes)
    (Env : EnvConfigs) : Stages where
  rsaDecodeFunc := S.rsaDecodeFunc
  aesDecryptFunc := S.aesDecryptFunc
  currentTimestampFunc := S.currentTimestampFunc
  hmacEncodeFunc := hmacEncode hmacSha256 Env
  vaildTimestampCheckFunc := vaildTimestampCheck

/-- The stages of `S` with the package variable `vaildTimestampCheckFunc`
set to `check`. -/
def Stages.withFreshness (S : Stages) (check : String → String → Outcome Bool) :
    Stages where
  rsaDecodeFunc := S.rsaDecodeFunc
  aesDecryptFunc := S.aesDecryptFunc
  currentTimestampFunc := S.currentTimestampFunc
  hmacEncodeFunc := S.hmacEncodeFunc
  vaildTimestampCheckFunc := check

/-! ## Test doubles (after `auth_test.go`) -/

/-- The payload type `inner` of the tests of `decodePayload`. -/
structure Inner where
  Value : String
  deriving DecidableEq, Repr, Inhabited

/-- The bytes of an ASCII string. -/
def bytesOf (s : String) : Bytes :=
  s.data.map fun c => Fin.ofNat c.toNat

/-- The JSON text of an envelope as `auth_test.go` builds it with
`json.Marshal(payloadWithHMAC{...})`. -/
def envelopeJson (envelope : PayloadModelWithHMAC Inner) : String :=
  "\x7b\"data\":\x7b\"value\":\"" ++ envelope.Data.Value ++
    "\"\x7d,\"timestamp\":\"" ++ envelope.Timestamp ++
    "\",\"hmac_data\":\"" ++ envelope.Hmac_data ++ "\"\x7d"

/-- A stand-in for the standard library on the inputs of the tests: the one
base64 text is `"ZGF0YQ=="` (the encoding of `"data"`); JSON decoding
recognises the text of `envelope` and fills the struct with it, on any other
plaintext it fails and leaves the zero value; the re-serialization of an
`inner` envelope is its JSON text. -/
def testLib (envelope : PayloadModelWithHMAC Inner) : StdLib Inner where
  base64Decode := fun s => if s = "ZGF0YQ==" then some (bytesOf "data") else none
  jsonUnmarshalWithHMAC := fun b =>
    if b = bytesOf (envelopeJson envelope) then (envelope, none)
    else (⟨⟨""⟩, "", ""⟩, some "unexpected end of JSON input")
  jsonUnmarshalWithoutHMAC := fun b =>
    if b = bytesOf (envelopeJson envelope) then
      (⟨envelope.Data, envelope.Timestamp⟩, none)
    else (⟨⟨""⟩, ""⟩, some "unexpected end of JSON input")
  jsonMarshal := fun v =>
    some (bytesOf ("\x7b\"data\":\x7b\"value\":\"" ++ v.Data.Value ++
      "\"\x7d,\"timestamp\":\"" ++ v.Timestamp ++ "\"\x7d"))

/-- The stage doubles of `TestDecodePayload_Success`: key unwrap gives
`"key"`, decryption gives `plain`, the clock reads `now`, every HMAC is
`"good-hmac"`; the freshness check is the production one. -/
def testStages (plain : Bytes) (now : String) : Stages where
  rsaDecodeFunc := fun _ => .returned (.ok (bytesOf "key"))
  aesDecryptFunc := fun _ _ _ => .returned (.ok plain)
  currentTimestampFunc := fun _ => now
  hmacEncodeFunc := fun _ => "good-hmac"
  vaildTimestampCheckFunc := vaildTimestampCheck

/-- A stand-in HMAC-SHA256 primitive: a digest of 32 zero bytes. -/
def testHmacSha256 : String → Bytes → Bytes :=
  fun _ _ => List.replicate 32 0

/-- The tag that `hmacEncode` computes with the stand-in digest. -/
def testTag : String :=
  hexEncodeToString (List.replicate 32 0)

/-- A configuration with the shared secret of the end-to-end scenario. -/
def testEnv : EnvConfigs where
  HmacKey := "s3cr3t"
  PrivateKey := ""
  IsEncryption := "true"

/-- The payload of the tests: each field is the base64 text of `"data"`. -/
def testPayload : HybridPayload where
  EncryptedKey := "ZGF0YQ=="
  IV := "ZGF0YQ=="
  EncryptedData := "ZGF0YQ=="

/-- The integer value of the last byte of `data` (0 for the empty slice). -/
def lastByte (data : Bytes) : Nat :=
  match data.getLast? with
  | some b => b.val
  | none => 0

/-! ## Symmetric decryption stage (`auth.go`, `aesDecrypt`) -/

/-- The standard library function `aes.NewCipher` as far as `aesDecrypt`
depends on it: a key of 16, 24 or 32 bytes gives a block cipher (here the key
itself), any other length gives the `KeySizeError` whose text is
"crypto/aes: invalid key size N". -/
def aesNewCipher (key : Bytes) : Except String Bytes :=
  if key.length = 16 ∨ key.length = 24 ∨ key.length = 32 then
    .ok key
  else
    .error ("crypto/aes: invalid key size " ++ toString key.length)

/-- The function `aesDecrypt` of `auth.go`. The parameter `cbcDecrypt` is
`CryptBlocks` of the decrypter that `cipher.NewCBCDecrypter(block, iv)`
returns; `cipher.NewCBCDecrypter` itself panics when the length of `iv`
differs from the block size 16, which is the `panicked` branch. -/
def aesDecrypt (cbcDecrypt : Bytes → Bytes → Bytes → Bytes)
    (cipherText key iv : Bytes) : Outcome (Except String Bytes) :=
  match aesNewCipher key with
  | .error err => .returned (.error err)
  | .ok block =>
    if cipherText.length % 16 ≠ 0 then
      .returned (.error "cipherText is not a multiple of the block size")
    else if iv.length ≠ 16 then
      .panicked
    else
      let plaintext := cbcDecrypt block iv cipherText
      .returned (pkcs7Unpad plaintext)

/-! ## Key unwrap stage (`auth.go`, `rsaDecode`) -/

/-- What `x509.ParsePKCS8PrivateKey` may return as a key: an RSA private key
or a key of another kind (ECDSA, Ed25519, ECDH). -/
inductive PrivateKey where
  | rsa (key : Bytes)
  | other
  deriving DecidableEq, Repr

/-- The standard library calls made by `rsaDecode`.

* `pemDecode` is `pem.Decode`: the bytes of the first PEM block, `none` when
  the text holds no PEM block (the returned pointer is `nil`);
* `parsePKCS8PrivateKey` is `x509.ParsePKCS8PrivateKey`;
* `decryptOAEP key c` is `key.Decrypt(nil, c, &rsa.OAEPOptions{Hash:
  crypto.SHA256})`, the error being the text of the failure. -/
structure RsaLib where
  pemDecode : String → Option Bytes
  parsePKCS8PrivateKey : Bytes → Except String PrivateKey
  decryptOAEP : Bytes → Bytes → Except String Bytes

/-- The function `rsaDecode` of `auth.go`. Reading `spkiBlock.Bytes` of a
`nil` block and the type assertion `priInterface.(*rsa.PrivateKey)` on a key
of another kind abort. The line `fmt.Println(err)` writes to standard output
only and is not part of the result. -/
def rsaDecode (R : RsaLib) (Env : EnvConfigs) (json : Bytes) :
    Outcome (Except String Bytes) :=
  match R.pemDecode Env.PrivateKey with
  | none => .panicked
  | some spkiBlockBytes =>
    match R.parsePKCS8PrivateKey spkiBlockBytes with
    | .error err => .returned (.error err)
    | .ok .other => .panicked
    | .ok (.rsa spkiKey) =>
      match R.decryptOAEP spkiKey json with
      | .error _ => .returned (.error "don't decode rsa Data")
      | .ok decryptSignature => .returned (.ok decryptSignature)

/-- A stand-in for the RSA library: the configured key parses to an RSA key,
and OAEP decryption accepts exactly the wrapped key `"wrapped"`; an empty
input and any other input fail with different texts. -/
def testRsaLib : RsaLib where
  pemDecode := fun s => if s = "" then none else some (bytesOf s)
  parsePKCS8PrivateKey := fun b => .ok (.rsa b)
  decryptOAEP := fun _ c =>
    if c = bytesOf "wrapped" then .ok (bytesOf "0123456789abcdef")
    else if c = [] then .error "crypto/rsa: decryption error"
    else .error "crypto/rsa: message too long"

/-- A configuration with a private key for `testRsaLib`. -/
def testRsaEnv : EnvConfigs where
  HmacKey := "s3cr3t"
  PrivateKey := "PRIVATE KEY"
  IsEncryption := "true"

/-! ## Storage model types (`model/storageConfig.go`) -/

/-- The struct `StorageConfig`. -/
structure StorageConfig where
  AccessKeyId : String
  Bucket : String
  Endpoint : String
  SecretAccessKey : String
  StorageType : String
  deriving DecidableEq, Repr, Inhabited

/-- The struct `SyncConfig`. -/
structure SyncConfig where
  Dst : StorageConfig
  Src : StorageConfig
  deriving DecidableEq, Repr, Inhabited

/-- The struct `SyncRequest`. -/
structure SyncRequest where
  DstFs : String
  SrcFs : String
  deriving DecidableEq, Repr

/-- The struct `ListRequest`. -/
structure ListRequest where
  Fs : String
  Remote : String
  Opts : String
  deriving DecidableEq, Repr

/-! ## HTTP handlers (`s3.go`: `sync`, `copy`, `bucketList`)

A handler is run on the body of the request. Its result is the list of the
calls it makes, in order, on the response writer `wr` and on the migration
engine, and whether it returns or aborts. Writes to standard output
(`fmt.Println`) are not recorded. -/

/-- A call made by a handler on the response writer or on the engine. The
text of `write` is what `fmt.Fprint(wr, x)` writes. -/
inductive Event where
  | headerAdd (key value : String)
  | writeHeader (statusCode : Int)
  | write (text : String)
  | rcloneInitialize
  | rcloneRPC (method input : String)
  deriving DecidableEq, Repr

/-- The standard library calls and the package variables used by the
handlers.

* `decodeHybridPayloadBody` is `json.NewDecoder(r.Body).Decode(&payload)` on
  a zero `payload`: the value left in it (the error is dropped by the source);
* `decodeSyncConfigBody` and `decodeStorageConfigBody` are the same call on
  the configuration structs, with the error (`none` for `nil`);
* `decodeSyncConfig`, `decodeStorageConfig` and `rcloneRPC` are the package
  variables of these names;
* `marshalSyncRequest` and `marshalListRequest` are `json.Marshal`;
* for the output `out` of the engine decoded by `json.Unmarshal` into
  `resultjson`, `resultjsonError out` is the string under the key `"error"`
  (`none` when the map is nil, has no such key, or holds a value of another
  type there) and `resultjsonText out` is the text that `fmt.Fprint` writes
  for the map. -/
structure HandlerEnv where
  decodeHybridPayloadBody : String → HybridPayload
  decodeSyncConfigBody : String → SyncConfig × Option String
  decodeStorageConfigBody : String → StorageConfig × Option String
  decodeSyncConfig : HybridPayload → Outcome (SyncConfig × Option String)
  decodeStorageConfig : HybridPayload → Outcome (StorageConfig × Option String)
  marshalSyncRequest : SyncRequest → Except String String
  marshalListRequest : ListRequest → Except String String
  rcloneRPC : String → String → String × Int
  resultjsonError : String → Option String
  resultjsonText : String → String

/-- The function `defaultDecodeSyncConfig` of `s3.go`. -/
def defaultDecodeSyncConfig (L : StdLib SyncConfig) (S : Stages)
    (payload : HybridPayload) : Outcome (SyncConfig × Option String) :=
  decodePayload L S payload

/-- The function `defaultDecodeStorageConfig` of `s3.go`. -/
def defaultDecodeStorageConfig (L : StdLib StorageConfig) (S : Stages)
    (payload : HybridPayload) : Outcome (StorageConfig × Option String) :=
  decodePayload L S payload

/-- The configuration that `sync` and `copy` read from the request (the
`if config.Env.IsEncryption == "true"` statement at their start, before its
error checks). -/
def requestSyncConfig (Env : EnvConfigs) (E : HandlerEnv) (body : String) :
    Outcome (SyncConfig × Option String) :=
  if Env.IsEncryption = "true" then
    let payload := E.decodeHybridPayloadBody body
    E.decodeSyncConfig payload
  else
    .returned (E.decodeSyncConfigBody body)

/-- The configuration that `bucketList` reads from the request. -/
def requestStorageConfig (Env : EnvConfigs) (E : HandlerEnv) (body : String) :
    Outcome (StorageConfig × Option String) :=
  if Env.IsEncryption = "true" then
    let payload := E.decodeHybridPayloadBody body
    E.decodeStorageConfig payload
  else
    .returned (E.decodeStorageConfigBody body)

/-- The request that `sync` and `copy` build for the engine from the
configuration (`srcfs`, `dstfs`, `syncRequest`). -/
def syncRequestOf (syncConfig : SyncConfig) : SyncRequest :=
  let srcfs := ":" ++ syncConfig.Src.StorageType ++ ",access_key_id=" ++
    syncConfig.Src.AccessKeyId ++ ",secret_access_key=" ++
    syncConfig.Src.SecretAccessKey ++ ",endpoint=\"" ++ syncConfig.Src.Endpoint ++ "\":"
  let srcfs := if syncConfig.Src.Bucket ≠ "" then srcfs ++ syncConfig.Src.Bucket else srcfs
  let dstfs := ":" ++ syncConfig.Dst.StorageType ++ ",access_key_id=" ++
    syncConfig.Dst.AccessKeyId ++ ",secret_access_key=" ++
    syncConfig.Dst.SecretAccessKey ++ ",endpoint=\"" ++ syncConfig.Dst.Endpoint ++ "\":"
  let dstfs := if syncConfig.Dst.Bucket ≠ "" then dstfs ++ syncConfig.Dst.Bucket else dstfs
  ⟨dstfs, srcfs⟩

/-- The request that `bucketList` builds for the engine (`fs`, `listRequest`). -/
def listRequestOf (storageConfig : StorageConfig) : ListRequest :=
  let fs := ":" ++ storageConfig.StorageType ++ ",access_key_id=" ++
    storageConfig.AccessKeyId ++ ",secret_access_key=" ++
    storageConfig.SecretAccessKey ++ ",endpoint=\"" ++ storageConfig.Endpoint ++ "\":"
  ⟨fs, "", "dirsOnly: true"⟩

/-- The end of `sync`, `copy` and `bucketList`, the same in the three: the
calls on `wr` after the engine has answered `(out, status)`. The response
writers of `net/http` and `httptest` abort in `WriteHeader` ("invalid
WriteHeader code") for a code below 100 or above 999; such a call leaves no
event. The type assertion `resultjson["error"].(string)` aborts when the map
has no string under `"error"`. -/
def rpcReply (E : HandlerEnv) (out : String) (status : Int) : List Event × Outcome Unit :=
  if status = 200 then
    ([.headerAdd "Content-type" "application/json", .writeHeader status,
      .write (E.resultjsonText out)], .returned ())
  else if status < 100 ∨ 999 < status then
    ([.headerAdd "Content-type" "application/json"], .panicked)
  else
    match E.resultjsonError out with
    | none =>
      ([.headerAdd "Content-type" "application/json", .writeHeader status], .panicked)
    | some _ =>
      ([.headerAdd "Content-type" "application/json", .writeHeader status,
        .write "an unknown error occurred"], .returned ())

/-- The handler `sync` of `s3.go`. -/
def sync (Env : EnvConfigs) (E : HandlerEnv) (body : String) : List Event × Outcome Unit :=
  match requestSyncConfig Env E body with
  | .panicked => ([], .panicked)
  | .returned (_, some err) => ([.writeHeader 500, .write err], .returned ())
  | .returned (syncConfig, none) =>
    match E.marshalSyncRequest (syncRequestOf syncConfig) with
    | .error err => ([.rcloneInitialize, .writeHeader 500, .write err], .returned ())
    | .ok syncRequestJSON =>
      let result := E.rcloneRPC "sync/sync" syncRequestJSON
      let reply := rpcReply E result.1 result.2
      (.rcloneInitialize :: .rcloneRPC "sync/sync" syncRequestJSON :: reply.1, reply.2)

/-- The handler `copy` of `s3.go`. -/
def copy (Env : EnvConfigs) (E : HandlerEnv) (body : String) : List Event × Outcome Unit :=
  match requestSyncConfig Env E body with
  | .panicked => ([], .panicked)
  | .returned (_, some err) => ([.writeHeader 500, .write err], .returned ())
  | .returned (syncConfig, none) =>
    match E.marshalSyncRequest (syncRequestOf syncConfig) with
    | .error err => ([.rcloneInitialize, .writeHeader 500, .write err], .returned ())
    | .ok syncRequestJSON =>
      let result := E.rcloneRPC "sync/copy" syncRequestJSON
      let reply := rpcReply E result.1 result.2
      (.rcloneInitialize :: .rcloneRPC "sync/copy" syncRequestJSON :: reply.1, reply.2)

/-- The handler `bucketList` of `s3.go`. -/
def bucketList (Env : EnvConfigs) (E : HandlerEnv) (body : String) :
    List Event × Outcome Unit :=
  match requestStorageConfig Env E body with
  | .panicked => ([], .panicked)
  | .returned (_, some err) => ([.writeHeader 500, .write err], .returned ())
  | .returned (storageConfig, none) =>
    match E.marshalListRequest (listRequestOf storageConfig) with
    | .error err => ([.rcloneInitialize, .writeHeader 500, .write err], .returned ())
    | .ok requestJSON =>
      let result := E.rcloneRPC "operations/list" requestJSON
      let reply := rpcReply E result.1 result.2
      (.rcloneInitialize :: .rcloneRPC "operations/list" requestJSON :: reply.1, reply.2)

/-- The status of the response: the code of the first `WriteHeader`. -/
def responseStatus : List Event → Option Int
  | [] => none
  | .writeHeader statusCode :: _ => some statusCode
  | _ :: rest => responseStatus rest

/-- The body of the response: the texts written to `wr`, in order. -/
def responseBody : List Event → String
  | [] => ""
  | .write text :: rest => text ++ responseBody rest
  | _ :: rest => responseBody rest

/-! ## Test doubles for the handlers (after `s3_test.go`) -/

/-- A stand-in for the standard library at payload type `SyncConfig`: the
base64 texts are those of `testLib`, JSON decoding leaves `envelope` in the
struct, and the re-serialization is reduced to the bytes of the timestamp. -/
def testSyncLib (envelope : PayloadModelWithHMAC SyncConfig) : StdLib SyncConfig where
  base64Decode := fun s => if s = "ZGF0YQ==" then some (bytesOf "data") else none
  jsonUnmarshalWithHMAC := fun _ => (envelope, none)
  jsonUnmarshalWithoutHMAC := fun _ => (⟨envelope.Data, envelope.Timestamp⟩, none)
  jsonMarshal := fun v => some (bytesOf v.Timestamp)

/-- The stages as `auth.go` wires them, over the stand-in primitives: the
clock reads `"1000"`, the block decryption is the identity. -/
def testProductionStages : Stages where
  rsaDecodeFunc := rsaDecode testRsaLib testRsaEnv
  aesDecryptFunc := aesDecrypt (fun _ _ c => c)
  currentTimestampFunc := fun _ => "1000"
  hmacEncodeFunc := hmacEncode testHmacSha256 testRsaEnv
  vaildTimestampCheckFunc := vaildTimestampCheck

/-- The configuration sent by `TestBucketList_RcloneError_Returns500`. -/
def testStorageConfig : StorageConfig where
  AccessKeyId := "key"
  Bucket := ""
  Endpoint := "http://endpoint"
  SecretAccessKey := "secret"
  StorageType := "s3"

/-- A stand-in for the collaborators of the handlers, after `withRcloneMock`:
the engine answers `(out, status)` to every call; the request bodies
`"bad-base64"` and `"good-base64"` decode to a payload whose `data` field is
not base64 and to `testPayload`; the plaintext body `"not-json"` fails to
decode and any other decodes to `testStorageConfig`; of the engine outputs
only the one of `TestBucketList_RcloneError_Returns500` holds a string under
`"error"`. -/
def testHandlerEnv (out : String) (status : Int) : HandlerEnv where
  decodeHybridPayloadBody := fun body =>
    if body = "bad-base64" then ⟨"ZGF0YQ==", "ZGF0YQ==", "%%%not-base64%%%"⟩
    else if body = "good-base64" then testPayload
    else ⟨"", "", ""⟩
  decodeSyncConfigBody := fun body =>
    if body = "not-json" then (default, some "invalid character")
    else (⟨testStorageConfig, testStorageConfig⟩, none)
  decodeStorageConfigBody := fun body =>
    if body = "not-json" then (default, some "invalid character")
    else (testStorageConfig, none)
  decodeSyncConfig :=
    defaultDecodeSyncConfig (testSyncLib ⟨default, "1000", "bad-hmac"⟩) testProductionStages
  decodeStorageConfig := fun _ => .returned (testStorageConfig, none)
  marshalSyncRequest := fun r => .ok (r.DstFs ++ " " ++ r.SrcFs)
  marshalListRequest := fun r => .ok r.Fs
  rcloneRPC := fun _ _ => (out, status)
  resultjsonError := fun o =>
    if o = "\x7b\"error\":\"something bad\"\x7d" then some "something bad" else none
  resultjsonText := fun o =>
    if o = "\x7b\"error\":\"something bad\"\x7d" then "map[error:something bad]"
    else "map[]"

/-- Whether a list of calls holds no call on the migration engine: neither
`rcloneInitialize` nor `rcloneRPC`. -/
def noEngineCall (calls : List Event) : Bool :=
  calls.all fun ev =>
    match ev with
    | .rcloneInitialize => false
    | .rcloneRPC _ _ => false
    | _ => true


/-! ## JSON text (`encoding/json`): the scanner behind `json.Valid` and `Decoder.Decode` -/

/-- The white space of JSON: space, tab, carriage return, line feed. -/
def isJsonSpace (c : Char) : Bool :=
  c = ' ' || c = '\t' || c = '\r' || c = '\n'

/-- The text after its leading white space. -/
def skipJsonSpace : List Char → List Char
  | [] => []
  | c :: cs => if isJsonSpace c then skipJsonSpace cs else c :: cs

/-- The text after its leading decimal digits. -/
def skipDigits : List Char → List Char
  | [] => []
  | c :: cs => if c.isDigit then skipDigits cs else c :: cs

/-- A hexadecimal digit of a `\u` escape. -/
def isHexDigit (c : Char) : Bool :=
  c.isDigit || (decide ('a' ≤ c) && decide (c ≤ 'f')) || (decide ('A' ≤ c) && decide (c ≤ 'F'))

/-- Scans a string literal after its opening quote and gives the text after
the closing quote; `none` for an unfinished literal, a control character or a
wrong escape. -/
def scanJsonString : List Char → Option (List Char)
  | [] => none
  | c :: rest =>
    if c = '"' then some rest
    else if c = '\\' then
      match rest with
      | [] => none
      | e :: rest₁ =>
        if e = 'u' then
          match rest₁ with
          | h₁ :: h₂ :: h₃ :: h₄ :: rest₂ =>
            if isHexDigit h₁ && isHexDigit h₂ && isHexDigit h₃ && isHexDigit h₄ then
              scanJsonString rest₂
            else none
          | _ => none
        else if e = '"' ∨ e = '\\' ∨ e = '/' ∨ e = 'b' ∨ e = 'f' ∨ e = 'n' ∨ e = 'r' ∨
            e = 't' then
          scanJsonString rest₁
        else none
    else if c.toNat < 32 then none
    else scanJsonString rest

/-- Scans the optional exponent of a number. -/
def scanJsonExponent (cs : List Char) : Option (List Char) :=
  match cs with
  | [] => some []
  | c :: rest =>
    if c = 'e' ∨ c = 'E' then
      let digits :=
        match rest with
        | [] => []
        | s :: rest₁ => if s = '+' ∨ s = '-' then rest₁ else s :: rest₁
      match digits with
      | [] => none
      | d :: rest₂ => if d.isDigit then some (skipDigits rest₂) else none
    else some (c :: rest)

/-- Scans the optional fraction of a number, then the exponent. -/
def scanJsonFraction (cs : List Char) : Option (List Char) :=
  match cs with
  | [] => some []
  | c :: rest =>
    if c = '.' then
      match rest with
      | [] => none
      | d :: rest₁ => if d.isDigit then scanJsonExponent (skipDigits rest₁) else none
    else scanJsonExponent (c :: rest)

/-- Scans a number: an optional minus sign, `0` or a run of digits that does
not start with `0`, an optional fraction, an optional exponent. -/
def scanJsonNumber (cs : List Char) : Option (List Char) :=
  let unsigned :=
    match cs with
    | [] => []
    | c :: rest => if c = '-' then rest else c :: rest
  match unsigned with
  | [] => none
  | d :: rest =>
    if d = '0' then scanJsonFraction rest
    else if d.isDigit then scanJsonFraction (skipDigits rest)
    else none

/-- Scans one of the literals `true`, `false`, `null`. -/
def scanJsonLiteral (cs : List Char) : Option (List Char) :=
  if cs.take 4 = ['t', 'r', 'u', 'e'] then some (cs.drop 4)
  else if cs.take 5 = ['f', 'a', 'l', 's', 'e'] then some (cs.drop 5)
  else if cs.take 4 = ['n', 'u', 'l', 'l'] then some (cs.drop 4)
  else none

/-- What the scanner reads next: a value, the elements of an array after its
opening bracket, or the members of an object after its opening brace. -/
inductive ScanMode where
  | value
  | elements
  | members
  deriving DecidableEq, Repr

/-- The scanner of `encoding/json` on a text: reads what `mode` says and gives
the text that follows, `none` for a syntax error or an early end. The third
argument is the number of open arrays and objects, at most 10000
(`maxNestingDepth`). The first argument bounds the number of nested calls;
`2 * length + 2` is enough for any text, each second call reading at least
one character. -/
def scanJson : Nat → ScanMode → Nat → List Char → Option (List Char)
  | 0, _, _, _ => none
  | fuel + 1, .value, depth, cs =>
    match skipJsonSpace cs with
    | [] => none
    | c :: rest =>
      if c = '\x7b' then
        if 10000 < depth + 1 then none
        else
          match skipJsonSpace rest with
          | [] => none
          | c₁ :: rest₁ =>
            if c₁ = '\x7d' then some rest₁
            else scanJson fuel .members (depth + 1) (c₁ :: rest₁)
      else if c = '[' then
        if 10000 < depth + 1 then none
        else
          match skipJsonSpace rest with
          | [] => none
          | c₁ :: rest₁ =>
            if c₁ = ']' then some rest₁
            else scanJson fuel .elements (depth + 1) (c₁ :: rest₁)
      else if c = '"' then scanJsonString rest
      else if c = '-' ∨ c.isDigit then scanJsonNumber (c :: rest)
      else scanJsonLiteral (c :: rest)
  | fuel + 1, .elements, depth, cs =>
    match scanJson fuel .value depth cs with
    | none => none
    | some rest =>
      match skipJsonSpace rest with
      | [] => none
      | c :: rest₁ =>
        if c = ',' then scanJson fuel .elements depth rest₁
        else if c = ']' then some rest₁
        else none
  | fuel + 1, .members, depth, cs =>
    match skipJsonSpace cs with
    | [] => none
    | c :: rest =>
      if c = '"' then
        match scanJsonString rest with
        | none => none
        | some rest₁ =>
          match skipJsonSpace rest₁ with
          | [] => none
          | c₁ :: rest₂ =>
            if c₁ = ':' then
              match scanJson fuel .value depth rest₂ with
              | none => none
              | some rest₃ =>
                match skipJsonSpace rest₃ with
                | [] => none
                | c₂ :: rest₄ =>
                  if c₂ = ',' then scanJson fuel .members depth rest₄
                  else if c₂ = '\x7d' then some rest₄
                  else none
            else none
      else none

/-- The text that follows the first JSON value of `text`, `none` when `text`
does not begin with a well-formed JSON value. -/
def jsonFirstValue (text : String) : Option (List Char) :=
  scanJson (2 * text.data.length + 2) .value 0 text.data

/-- The standard library function `json.Valid`: the text is one JSON value
with nothing but white space after it. -/
def jsonValid (text : String) : Bool :=
  match jsonFirstValue text with
  | none => false
  | some rest => (skipJsonSpace rest).isEmpty

/-- The call `json.NewDecoder(r.Body).Decode(&v)` on a zero `v`, for a body
that is text. The decoder reads the first JSON value of the body and no
further; it fails when the body does not begin with a well-formed value
(`syntaxError` is the text of that error), and otherwise hands the text of
the value to `unmarshal`, which is `json.Unmarshal` into `v`. What follows the
first value is not looked at. -/
def decoderDecode {α : Type} [Inhabited α] (syntaxError : String → String)
    (unmarshal : String → α × Option String) (body : String) : α × Option String :=
  match jsonFirstValue body with
  | none => (default, some (syntaxError body))
  | some rest => unmarshal (String.mk (body.data.take (body.data.length - rest.length)))

/-- The collaborators of `testHandlerEnv` with the plaintext bodies decoded by
`decoderDecode`: the empty object unmarshals to the zero configuration, any
other value is taken as of the wrong shape. -/
def testStreamEnv (out : String) (status : Int) : HandlerEnv where
  decodeHybridPayloadBody := (testHandlerEnv out status).decodeHybridPayloadBody
  decodeSyncConfigBody :=
    decoderDecode (fun _ => "invalid character")
      (fun value =>
        if value = "\x7b\x7d" then (default, none)
        else (default, some "json: cannot unmarshal"))
  decodeStorageConfigBody :=
    decoderDecode (fun _ => "invalid character")
      (fun value =>
        if value = "\x7b\x7d" then (default, none)
        else (default, some "json: cannot unmarshal"))
  decodeSyncConfig := (testHandlerEnv out status).decodeSyncConfig
  decodeStorageConfig := (testHandlerEnv out status).decodeStorageConfig
  marshalSyncRequest := (testHandlerEnv out status).marshalSyncRequest
  marshalListRequest := (testHandlerEnv out status).marshalListRequest
  rcloneRPC := (testHandlerEnv out status).rcloneRPC
  resultjsonError := (testHandlerEnv out status).resultjsonError
  resultjsonText := (testHandlerEnv out status).resultjsonText


/-! ## Theorems: the decoding pipeline -/

/-- What a successful return of `decodePayload` says about each step. -/
theorem decodePayload_success_inv {T : Type} [Inhabited T] (L : StdLib T) (S : Stages)
    (payload : HybridPayload) (d : T)
    (h : decodePayload L S payload = .returned (d, none)) :
    ∃ ct key iv k p byt,
      L.base64Decode payload.EncryptedData = some ct ∧
      L.base64Decode payload.EncryptedKey = some key ∧
      L.base64Decode payload.IV = some iv ∧
      S.rsaDecodeFunc key = .returned (.ok k) ∧
      S.aesDecryptFunc ct k iv = .returned (.ok p) ∧
      L.jsonMarshal (L.jsonUnmarshalWithoutHMAC p).1 = some byt ∧
      S.hmacEncodeFunc byt = (L.jsonUnmarshalWithHMAC p).1.Hmac_data ∧
      S.vaildTimestampCheckFunc (L.jsonUnmarshalWithoutHMAC p).1.Timestamp
        (S.currentTimestampFunc ()) = .returned true ∧
      d = (L.jsonUnmarshalWithHMAC p).1.Data := by
  unfold decodePayload at h
  simp only [] at h
  split at h
  · cases h
  · rename_i ct hct
    split at h
    · cases h
    · rename_i key hkey
      split at h
      · cases h
      · rename_i iv hiv
        split at h
        · cases h
        · cases h
        · rename_i k hk
          split at h
          · cases h
          · cases h
          · rename_i p hp
            split at h
            · cases h
            · rename_i byt hbyt
              split at h
              · cases h
              · rename_i hmac
                split at h
                · cases h
                · cases h
                · rename_i hv
                  refine ⟨ct, key, iv, k, p, byt, hct, hkey, hiv, hk, hp, hbyt, ?_, hv, ?_⟩
                  · exact not_not.mp hmac
                  · cases h; rfl

/-- After the three base64 fields, the key unwrap and the decryption have
succeeded, a mismatch of the tags gives the integrity error. -/
theorem decodePayload_integrity_fail {T : Type} [Inhabited T] (L : StdLib T)
    (S : Stages) (payload : HybridPayload) (ct key iv k p byt : Bytes)
    (hct : L.base64Decode payload.EncryptedData = some ct)
    (hkey : L.base64Decode payload.EncryptedKey = some key)
    (hiv : L.base64Decode payload.IV = some iv)
    (hk : S.rsaDecodeFunc key = .returned (.ok k))
    (hp : S.aesDecryptFunc ct k iv = .returned (.ok p))
    (hbyt : L.jsonMarshal (L.jsonUnmarshalWithoutHMAC p).1 = some byt)
    (hne : S.hmacEncodeFunc byt ≠ (L.jsonUnmarshalWithHMAC p).1.Hmac_data) :
    decodePayload L S payload =
      .returned (default, some "integrity verification failed") := by
  unfold decodePayload
  simp only [hct, hkey, hiv, hk, hp, hbyt]
  rw [if_pos hne]

/-- After the three base64 fields, the key unwrap and the decryption have
succeeded and the tags agree, the result is decided by the freshness stage. -/
theorem decodePayload_integrity_ok {T : Type} [Inhabited T] (L : StdLib T)
    (S : Stages) (payload : HybridPayload) (ct key iv k p byt : Bytes)
    (hct : L.base64Decode payload.EncryptedData = some ct)
    (hkey : L.base64Decode payload.EncryptedKey = some key)
    (hiv : L.base64Decode payload.IV = some iv)
    (hk : S.rsaDecodeFunc key = .returned (.ok k))
    (hp : S.aesDecryptFunc ct k iv = .returned (.ok p))
    (hbyt : L.jsonMarshal (L.jsonUnmarshalWithoutHMAC p).1 = some byt)
    (heq : S.hmacEncodeFunc byt = (L.jsonUnmarshalWithHMAC p).1.Hmac_data) :
    decodePayload L S payload =
      match S.vaildTimestampCheckFunc (L.jsonUnmarshalWithoutHMAC p).1.Timestamp
          (S.currentTimestampFunc ()) with
      | .panicked => .panicked
      | .returned false => .returned (default, some "your request has expired")
      | .returned true => .returned ((L.jsonUnmarshalWithHMAC p).1.Data, none) := by
  unfold decodePayload
  simp only [hct, hkey, hiv, hk, hp, hbyt]
  rw [if_neg (not_not.mpr heq)]

/-- The freshness check aborts exactly when one of the two timestamps is not
accepted by `Atoi`. -/
theorem vaildTimestampCheck_panicked_iff (o c : String) :
    vaildTimestampCheck o c = .panicked ↔ (Atoi o = none ∨ Atoi c = none) := by
  unfold vaildTimestampCheck
  cases hc : Atoi c with
  | none => simp
  | some b =>
    cases ho : Atoi o with
    | none => simp
    | some a =>
      simp only [reduceCtorEq, or_self, iff_false]
      split <;> simp

/-- The hexadecimal text of a non-empty digest is not the empty string. -/
theorem hexEncodeToString_ne_empty (src : Bytes) (h : src ≠ []) :
    hexEncodeToString src ≠ "" := by
  intro he
  have hd := congrArg String.data he
  cases src with
  | nil => exact h rfl
  | cons b bs => simp [hexEncodeToString] at hd

/-- The production tag is never the empty string when the digest is not
empty. -/
theorem hmacEncode_ne_empty (hmacSha256 : String → Bytes → Bytes) (Env : EnvConfigs)
    (json : Bytes) (h : hmacSha256 Env.HmacKey json ≠ []) :
    hmacEncode hmacSha256 Env json ≠ "" :=
  hexEncodeToString_ne_empty _ h

/-! ## Theorems: PKCS#7 -/

theorem getD_last_eq_lastByte (data : Bytes) :
    (data.getD (data.length - 1) 0).val = lastByte data := by
  unfold lastByte
  rcases List.eq_nil_or_concat data with h | ⟨l, a, h⟩
  · subst h; rfl
  · subst h
    simp [List.getD_eq_getElem?_getD]

/-- The body of `pkcs7Unpad` with the padding length named by `lastByte`. -/
theorem pkcs7Unpad_eq (data : Bytes) :
    pkcs7Unpad data =
      if data.length = 0 then .error "unpad: input is empty"
      else if lastByte data > data.length ∨ lastByte data = 0 then
        .error "unpad: invalid padding"
      else if (data.drop (data.length - lastByte data)).any
          (fun b => b.val != lastByte data) then
        .error "unpad: incorrect padding bytes"
      else .ok (data.take (data.length - lastByte data)) := by
  unfold pkcs7Unpad
  simp only [getD_last_eq_lastByte]

theorem lastByte_eq_getLast (data : Bytes) (hne : data ≠ []) :
    lastByte data = (data.getLast hne).val := by
  unfold lastByte
  rw [List.getLast?_eq_getLast _ hne]

theorem any_ne_iff (l : Bytes) (n : Nat) :
    l.any (fun b => b.val != n) = true ↔ ∃ b ∈ l, b.val ≠ n := by
  simp [List.any_eq_true]

/-- Success branch of `pkcs7Unpad`, stated with `lastByte`. -/
theorem pkcs7Unpad_ok_of (data : Bytes) (n : Nat) (hl : lastByte data = n)
    (h1 : 1 ≤ n) (hle : n ≤ data.length)
    (hall : ∀ b ∈ data.drop (data.length - n), b.val = n) :
    pkcs7Unpad data = .ok (data.take (data.length - n)) := by
  have hlen : data.length ≠ 0 := by omega
  have hany : ¬ ((data.drop (data.length - n)).any (fun b => b.val != n) = true) := by
    rw [any_ne_iff]
    rintro ⟨b, hb, hbn⟩
    exact hbn (hall b hb)
  rw [pkcs7Unpad_eq, hl, if_neg hlen, if_neg (by omega), if_neg hany]

/-- C3: when the last byte of a non-empty `data` has value `n` with
`1 ≤ n ≤ len data` and each of the final `n` bytes equals `n`, `pkcs7Unpad`
succeeds and returns the first `len data - n` bytes of `data`. -/
theorem pkcs7Unpad_valid (data : Bytes) (n : Nat) (hne : data ≠ [])
    (hlast : (data.getLast hne).val = n) (h1 : 1 ≤ n) (hle : n ≤ data.length)
    (hall : ∀ b ∈ data.drop (data.length - n), b.val = n) :
    pkcs7Unpad data = .ok (data.take (data.length - n)) :=
  pkcs7Unpad_ok_of data n (by rw [lastByte_eq_getLast data hne, hlast]) h1 hle hall

/-- Witness of C3 on the input of `TestPkcs7Unpad_Valid`. -/
theorem pkcs7Unpad_valid_witness :
    pkcs7Unpad [1, 2, 3, 4, 4, 4, 4] = .ok [1, 2, 3] :=
  pkcs7Unpad_valid [1, 2, 3, 4, 4, 4, 4] 4 (by decide) (by decide) (by decide)
    (by decide) (by simp; decide)

/-- C4: `pkcs7Unpad` returns an error exactly when `data` is empty, or its
last byte `n` is zero, or `n` exceeds the length, or one of the final `n`
bytes differs from `n`; and in each of these cases no data is returned. -/
theorem pkcs7Unpad_error_iff (data : Bytes) :
    ((∃ e, pkcs7Unpad data = .error e) ↔
      (data = [] ∨ lastByte data = 0 ∨ lastByte data > data.length ∨
        ∃ b ∈ data.drop (data.length - lastByte data), b.val ≠ lastByte data)) ∧
    ((data = [] ∨ lastByte data = 0 ∨ lastByte data > data.length ∨
        ∃ b ∈ data.drop (data.length - lastByte data), b.val ≠ lastByte data) →
      ∀ out, pkcs7Unpad data ≠ .ok out) := by
  have key : (∃ e, pkcs7Unpad data = .error e) ↔
      (data = [] ∨ lastByte data = 0 ∨ lastByte data > data.length ∨
        ∃ b ∈ data.drop (data.length - lastByte data), b.val ≠ lastByte data) := by
    rw [pkcs7Unpad_eq, ← any_ne_iff]
    by_cases h0 : data.length = 0
    · have : data = [] := List.length_eq_zero.mp h0
      simp [this]
    · have hne : data ≠ [] := fun h => h0 (by simp [h])
      rw [if_neg h0]
      by_cases h1 : lastByte data > data.length ∨ lastByte data = 0
      · rw [if_pos h1]
        constructor
        · intro _
          rcases h1 with h1 | h1
          · exact Or.inr (Or.inr (Or.inl h1))
          · exact Or.inr (Or.inl h1)
        · intro _; exact ⟨_, rfl⟩
      · rw [if_neg h1]
        by_cases h2 : (data.drop (data.length - lastByte data)).any
            (fun b => b.val != lastByte data) = true
        · rw [if_pos h2]
          exact ⟨fun _ => Or.inr (Or.inr (Or.inr h2)), fun _ => ⟨_, rfl⟩⟩
        · rw [if_neg h2]
          constructor
          · rintro ⟨e, he⟩; cases he
          · rintro (h | h | h | h)
            · exact absurd h hne
            · exact absurd (Or.inr h) h1
            · exact absurd (Or.inl h) h1
            · exact absurd h h2
  refine ⟨key, fun hc out hout => ?_⟩
  obtain ⟨e, he⟩ := key.mpr hc
  rw [hout] at he
  cases he

/-- C5: for a block size `k` with `1 ≤ k ≤ 255` (in particular the AES block
size 16) and a byte sequence `b` of length at least 1, removing the padding
from `pkcs7Pad k b` succeeds and gives back `b`. -/
theorem pkcs7Unpad_pkcs7Pad (k : Nat) (b : Bytes) (_hb : 1 ≤ b.length)
    (hk1 : 1 ≤ k) (hk : k ≤ 255) :
    pkcs7Unpad (pkcs7Pad k b) = .ok b := by
  have hmod : b.length % k < k := Nat.mod_lt _ (by omega)
  have hn1 : 1 ≤ k - b.length % k := by omega
  have hn : k - b.length % k < 256 := by omega
  have hval : ((Fin.ofNat (k - b.length % k) : Fin 256)).val = k - b.length % k := by
    show (k - b.length % k) % 256 = _
    exact Nat.mod_eq_of_lt hn
  have hrep : List.replicate (k - b.length % k) (Fin.ofNat (k - b.length % k) : Fin 256) ≠ [] := by
    intro h
    have := congrArg List.length h
    simp at this
    omega
  have h := pkcs7Unpad_ok_of (pkcs7Pad k b) (k - b.length % k)
    (by
      unfold pkcs7Pad lastByte
      simp only []
      rw [List.getLast?_append_of_ne_nil _ hrep, List.getLast?_eq_getLast _ hrep]
      simp only [List.getLast_replicate]
      exact hval)
    hn1
    (by unfold pkcs7Pad; simp)
    (by
      unfold pkcs7Pad
      intro x hx
      simp only [List.length_append, List.length_replicate, Nat.add_sub_cancel,
        List.drop_left] at hx
      rw [List.eq_of_mem_replicate hx]
      exact hval)
  rw [h]
  unfold pkcs7Pad
  simp

/-- Witness of C5 at the AES block size 16. -/
theorem pkcs7Unpad_pkcs7Pad_witness :
    pkcs7Unpad (pkcs7Pad 16 [1, 2, 3]) = .ok [1, 2, 3] :=
  pkcs7Unpad_pkcs7Pad 16 [1, 2, 3] (by decide) (by decide) (by decide)

/-! ## Theorems: freshness check -/

theorem digitsValue_of_all_digits (ds : List Char) (acc : Nat)
    (h : ∀ c ∈ ds, c.isDigit = true) :
    digitsValue ds acc = some (ds.foldl (fun acc c => acc * 10 + (c.toNat - 48)) acc) := by
  induction ds generalizing acc with
  | nil => rfl
  | cons c cs ih =>
    have hc : c.isDigit = true := h c (List.mem_cons_self c cs)
    simp only [digitsValue, hc, if_true, List.foldl_cons]
    exact ih _ (fun d hd => h d (List.mem_cons_of_mem c hd))

/-- A string of decimal digits whose value fits a 64-bit `int` is parsed by
`Atoi` to that value. -/
theorem Atoi_of_isDecimal (s : String) (hs : isDecimal s = true)
    (hv : decimalValue s < 2 ^ 63) : Atoi s = some (decimalValue s : Int) := by
  unfold isDecimal at hs
  unfold decimalValue at hv
  unfold Atoi decimalValue
  cases hd : s.data with
  | nil => simp [hd] at hs
  | cons c cs =>
    rw [hd] at hs hv
    simp only [List.isEmpty_cons, Bool.not_false, Bool.true_and, List.all_eq_true] at hs
    have hc : c.isDigit = true := hs c (List.mem_cons_self c cs)
    have hm : c ≠ '-' := by
      intro h; rw [h] at hc; exact absurd hc (by decide)
    have hp : c ≠ '+' := by
      intro h; rw [h] at hc; exact absurd hc (by decide)
    simp only [hm, hp, or_self, if_false, List.isEmpty_cons, Bool.false_eq_true]
    rw [digitsValue_of_all_digits (c :: cs) 0 hs]
    simp only [if_pos hv]

theorem wrapInt64_of_range (z : Int) (hlo : -(2 ^ 63) ≤ z) (hhi : z < 2 ^ 63) :
    wrapInt64 z = z := by
  unfold wrapInt64
  rw [Int.emod_eq_of_lt (by omega) (by omega)]
  omega

/-- Every value that `Atoi` returns lies in the range of a 64-bit `int`. -/
theorem Atoi_range (s : String) (z : Int) (h : Atoi s = some z) :
    -(2 ^ 63) ≤ z ∧ z < 2 ^ 63 := by
  unfold Atoi at h
  cases hd : s.data with
  | nil => simp [hd] at h
  | cons c cs =>
    rw [hd] at h
    simp only [] at h
    by_cases he : (if c = '-' ∨ c = '+' then cs else c :: cs).isEmpty = true
    · simp [he] at h
    · rw [if_neg he] at h
      cases hv : digitsValue (if c = '-' ∨ c = '+' then cs else c :: cs) 0 with
      | none => simp [hv] at h
      | some n =>
        simp only [hv] at h
        by_cases hm : c = '-'
        · rw [if_pos hm] at h
          by_cases hn : n ≤ 2 ^ 63
          · rw [if_pos hn] at h
            cases h
            constructor <;> omega
          · rw [if_neg hn] at h
            cases h
        · rw [if_neg hm] at h
          by_cases hn : n < 2 ^ 63
          · rw [if_pos hn] at h
            cases h
            constructor <;> omega
          · rw [if_neg hn] at h
            cases h

/-- The freshness check on two parsed timestamps whose difference does not
leave the range of `int`. -/
theorem vaildTimestampCheck_of_Atoi (o c : String) (a b : Int)
    (ho : Atoi o = some a) (hc : Atoi c = some b)
    (hlo : -(2 ^ 63) ≤ b - a) (hhi : b - a < 2 ^ 63) :
    vaildTimestampCheck o c = .returned (decide (b - a ≤ 300000)) := by
  unfold vaildTimestampCheck
  simp only [ho, hc, wrapInt64_of_range (b - a) hlo hhi]
  by_cases h : b - a ≤ 300000
  · rw [if_neg (by omega)]; simp [h]
  · rw [if_pos (by omega)]; simp [h]

/-- C6: for strings of decimal digits with values below `2 ^ 63`,
`vaildTimestampCheck` returns false exactly when current minus original
exceeds 300000 and returns true otherwise; in particular with current time
`T0 ≥ 300001` it accepts `T0 - 300000` and rejects `T0 - 300001`. -/
theorem vaildTimestampCheck_iff (originTimestamp currentTimestamp : String)
    (ho : isDecimal originTimestamp = true) (hc : isDecimal currentTimestamp = true)
    (hov : decimalValue originTimestamp < 2 ^ 63)
    (hcv : decimalValue currentTimestamp < 2 ^ 63) :
    (vaildTimestampCheck originTimestamp currentTimestamp = .returned false ↔
      (decimalValue currentTimestamp : Int) - decimalValue originTimestamp > 300000) ∧
    (vaildTimestampCheck originTimestamp currentTimestamp = .returned true ↔
      (decimalValue currentTimestamp : Int) - decimalValue originTimestamp ≤ 300000) ∧
    (∀ T0 : Nat, 300001 ≤ T0 → decimalValue currentTimestamp = T0 →
      (decimalValue originTimestamp = T0 - 300000 →
        vaildTimestampCheck originTimestamp currentTimestamp = .returned true) ∧
      (decimalValue originTimestamp = T0 - 300001 →
        vaildTimestampCheck originTimestamp currentTimestamp = .returned false)) := by
  have h := vaildTimestampCheck_of_Atoi originTimestamp currentTimestamp _ _
    (Atoi_of_isDecimal _ ho hov) (Atoi_of_isDecimal _ hc hcv) (by omega) (by omega)
  rw [h]
  refine ⟨?_, ?_, ?_⟩
  · by_cases hd : (decimalValue currentTimestamp : Int) - decimalValue originTimestamp ≤ 300000
    · simp [hd]
    · simp [hd]; omega
  · by_cases hd : (decimalValue currentTimestamp : Int) - decimalValue originTimestamp ≤ 300000
    · simp [hd]
    · simp [hd]
  · intro T0 hT hcur
    constructor
    · intro horig
      have : (decimalValue currentTimestamp : Int) - decimalValue originTimestamp ≤ 300000 := by
        omega
      simp [this]
    · intro horig
      have : ¬ ((decimalValue currentTimestamp : Int) - decimalValue originTimestamp ≤ 300000) := by
        omega
      simp [this]

/-- Witness of C6 at the boundary `T0 = 300001`, original `1`. -/
theorem vaildTimestampCheck_iff_witness :
    vaildTimestampCheck "1" "300001" = .returned true ∧
      vaildTimestampCheck "0" "300001" = .returned false :=
  ⟨((vaildTimestampCheck_iff "1" "300001" (by decide) (by decide) (by decide)
      (by decide)).2.2 300001 (by decide) (by decide)).1 (by decide),
   ((vaildTimestampCheck_iff "0" "300001" (by decide) (by decide) (by decide)
      (by decide)).2.2 300001 (by decide) (by decide)).2 (by decide)⟩

/-- C7: for a non-negative current time and an envelope timestamp that is
greater than or equal to it (up to the limit of a 64-bit `int`),
`vaildTimestampCheck` returns true. -/
theorem vaildTimestampCheck_future (originTimestamp currentTimestamp : String)
    (ho : isDecimal originTimestamp = true) (hc : isDecimal currentTimestamp = true)
    (hov : decimalValue originTimestamp < 2 ^ 63)
    (hge : decimalValue currentTimestamp ≤ decimalValue originTimestamp) :
    vaildTimestampCheck originTimestamp currentTimestamp = .returned true := by
  have h := vaildTimestampCheck_of_Atoi originTimestamp currentTimestamp _ _
    (Atoi_of_isDecimal _ ho hov) (Atoi_of_isDecimal _ hc (by omega)) (by omega) (by omega)
  rw [h]
  have : (decimalValue currentTimestamp : Int) - decimalValue originTimestamp ≤ 300000 := by
    omega
  simp [this]

/-- Witness of C7: the largest 64-bit timestamp against current time 0. -/
theorem vaildTimestampCheck_future_witness :
    vaildTimestampCheck "9223372036854775807" "0" = .returned true :=
  vaildTimestampCheck_future "9223372036854775807" "0" (by decide) (by decide)
    (by decide) (by decide)

/-! ## Theorems: claims on the decoding pipeline -/

/-- C1: when `decodePayload`, run with the production HMAC and freshness
stages, returns data `d` and no error, the decrypted plaintext was decoded to
an envelope `(d, ts, tag)` whose tag is `hmacEncode` of the re-serialized
`{data: d, timestamp: ts}` and for which `vaildTimestampCheck ts now` is true.
The hypothesis `hjson` is the behaviour of `encoding/json`: the keys `data`
and `timestamp` are decoded alike into both structs. -/
theorem decodePayload_success_invariants {T : Type} [Inhabited T] (L : StdLib T)
    (S : Stages) (hmacSha256 : String → Bytes → Bytes) (Env : EnvConfigs)
    (payload : HybridPayload) (d : T)
    (hjson : ∀ b, (L.jsonUnmarshalWithoutHMAC b).1 =
      ⟨(L.jsonUnmarshalWithHMAC b).1.Data, (L.jsonUnmarshalWithHMAC b).1.Timestamp⟩)
    (h : decodePayload L (S.withProductionChecks hmacSha256 Env) payload =
      .returned (d, none)) :
    ∃ ct key iv k plaintext ts tag byt,
      L.base64Decode payload.EncryptedData = some ct ∧
      L.base64Decode payload.EncryptedKey = some key ∧
      L.base64Decode payload.IV = some iv ∧
      S.rsaDecodeFunc key = .returned (.ok k) ∧
      S.aesDecryptFunc ct k iv = .returned (.ok plaintext) ∧
      (L.jsonUnmarshalWithHMAC plaintext).1 = ⟨d, ts, tag⟩ ∧
      L.jsonMarshal ⟨d, ts⟩ = some byt ∧
      tag = hmacEncode hmacSha256 Env byt ∧
      vaildTimestampCheck ts (S.currentTimestampFunc ()) = .returned true := by
  obtain ⟨ct, key, iv, k, p, byt, hct, hkey, hiv, hk, hp, hbyt, hmac, hv, hd⟩ :=
    decodePayload_success_inv L (S.withProductionChecks hmacSha256 Env) payload d h
  rw [hjson p] at hbyt hv
  refine ⟨ct, key, iv, k, p, (L.jsonUnmarshalWithHMAC p).1.Timestamp,
    (L.jsonUnmarshalWithHMAC p).1.Hmac_data, byt, hct, hkey, hiv, hk, hp, ?_, ?_, ?_, hv⟩
  · rw [hd]
  · rw [hd]; exact hbyt
  · exact hmac.symm

/-- Witness of C1: the envelope of `TestDecodePayload_Success` with the tag of
the stand-in digest. -/
theorem decodePayload_success_invariants_witness :
    ∃ ct key iv k plaintext ts tag byt,
      (testLib ⟨⟨"ok"⟩, "0", testTag⟩).base64Decode testPayload.EncryptedData = some ct ∧
      (testLib ⟨⟨"ok"⟩, "0", testTag⟩).base64Decode testPayload.EncryptedKey = some key ∧
      (testLib ⟨⟨"ok"⟩, "0", testTag⟩).base64Decode testPayload.IV = some iv ∧
      (testStages (bytesOf (envelopeJson ⟨⟨"ok"⟩, "0", testTag⟩)) "1000").rsaDecodeFunc key =
        .returned (.ok k) ∧
      (testStages (bytesOf (envelopeJson ⟨⟨"ok"⟩, "0", testTag⟩)) "1000").aesDecryptFunc
        ct k iv = .returned (.ok plaintext) ∧
      ((testLib ⟨⟨"ok"⟩, "0", testTag⟩).jsonUnmarshalWithHMAC plaintext).1 =
        ⟨⟨"ok"⟩, ts, tag⟩ ∧
      (testLib ⟨⟨"ok"⟩, "0", testTag⟩).jsonMarshal ⟨⟨"ok"⟩, ts⟩ = some byt ∧
      tag = hmacEncode testHmacSha256 testEnv byt ∧
      vaildTimestampCheck ts
        ((testStages (bytesOf (envelopeJson ⟨⟨"ok"⟩, "0", testTag⟩))
          "1000").currentTimestampFunc ()) = .returned true :=
  decodePayload_success_invariants (testLib ⟨⟨"ok"⟩, "0", testTag⟩)
    (testStages (bytesOf (envelopeJson ⟨⟨"ok"⟩, "0", testTag⟩)) "1000")
    testHmacSha256 testEnv testPayload ⟨"ok"⟩
    (fun b => by
      by_cases hb : b = bytesOf (envelopeJson ⟨⟨"ok"⟩, "0", testTag⟩) <;>
        simp [testLib, hb])
    (by decide)

/-- C2, as stated, fails: with a well-formed and correctly tagged envelope,
(1) a timestamp of decimal digits beyond the range of `int` aborts the call
although `now - ts ≤ 300000`, and (2) a negative clock with a far-future
timestamp wraps the subtraction and the call reports expiry. -/
theorem decodePayload_roundtrip_counterexample :
    (isDecimal "10000000000000000000" = true ∧
      (1000 : Int) - (decimalValue "10000000000000000000" : Int) ≤ 300000 ∧
      (∀ byt, hmacEncode testHmacSha256 testEnv byt = testTag) ∧
      decodePayload (testLib ⟨⟨"ok"⟩, "10000000000000000000", testTag⟩)
        ((testStages (bytesOf (envelopeJson ⟨⟨"ok"⟩, "10000000000000000000", testTag⟩))
          "1000").withProductionChecks testHmacSha256 testEnv)
        testPayload = .panicked) ∧
    (Atoi "9223372036854775807" = some 9223372036854775807 ∧
      Atoi "-2" = some (-2) ∧
      (-2 : Int) - 9223372036854775807 ≤ 300000 ∧
      decodePayload (testLib ⟨⟨"ok"⟩, "9223372036854775807", testTag⟩)
        ((testStages (bytesOf (envelopeJson ⟨⟨"ok"⟩, "9223372036854775807", testTag⟩))
          "-2").withProductionChecks testHmacSha256 testEnv)
        testPayload = .returned (default, some "your request has expired")) := by
  refine ⟨⟨by decide, by decide, fun _ => rfl, by decide⟩, by decide, by decide,
    by decide, by decide⟩

/-- C2 (amended): if the three fields are valid base64, key unwrap and
decryption succeed, the plaintext decodes without error to the envelope
`{data: d, timestamp: ts, hmac_data: tag}`, `tag` is the HMAC of the
re-serialized `{data: d, timestamp: ts}`, `Atoi` accepts `ts` and the current
time as 64-bit integers `a` and `b`, and `-2^63 ≤ b - a ≤ 300000`, then
`decodePayload` returns exactly `d` with no error. -/
theorem decodePayload_roundtrip {T : Type} [Inhabited T] (L : StdLib T) (S : Stages)
    (hmacSha256 : String → Bytes → Bytes) (Env : EnvConfigs) (payload : HybridPayload)
    (ct key iv k p byt : Bytes) (d : T) (ts tag : String) (a b : Int)
    (hct : L.base64Decode payload.EncryptedData = some ct)
    (hkey : L.base64Decode payload.EncryptedKey = some key)
    (hiv : L.base64Decode payload.IV = some iv)
    (hk : S.rsaDecodeFunc key = .returned (.ok k))
    (hp : S.aesDecryptFunc ct k iv = .returned (.ok p))
    (hW : L.jsonUnmarshalWithHMAC p = (⟨d, ts, tag⟩, none))
    (hWo : L.jsonUnmarshalWithoutHMAC p = (⟨d, ts⟩, none))
    (hbyt : L.jsonMarshal ⟨d, ts⟩ = some byt)
    (htag : tag = hmacEncode hmacSha256 Env byt)
    (hts : Atoi ts = some a) (hnow : Atoi (S.currentTimestampFunc ()) = some b)
    (hwrap : -(2 ^ 63) ≤ b - a) (hfresh : b - a ≤ 300000) :
    decodePayload L (S.withProductionChecks hmacSha256 Env) payload =
      .returned (d, none) := by
  have hv : vaildTimestampCheck ts (S.currentTimestampFunc ()) = .returned true := by
    rw [vaildTimestampCheck_of_Atoi ts _ a b hts hnow hwrap (by omega)]
    simp [hfresh]
  rw [decodePayload_integrity_ok L (S.withProductionChecks hmacSha256 Env) payload
    ct key iv k p byt hct hkey hiv hk hp (by rw [hWo]; exact hbyt)
    (by rw [hW]; exact htag.symm)]
  simp only [Stages.withProductionChecks, hWo, hW, hv]

/-- Witness of C2 (amended): the end-to-end scenario, timestamp `"1000"` at
current time `"1000"`. -/
theorem decodePayload_roundtrip_witness :
    decodePayload (testLib ⟨⟨"ok"⟩, "1000", testTag⟩)
      ((testStages (bytesOf (envelopeJson ⟨⟨"ok"⟩, "1000", testTag⟩))
        "1000").withProductionChecks testHmacSha256 testEnv)
      testPayload = .returned (⟨"ok"⟩, none) :=
  decodePayload_roundtrip (testLib ⟨⟨"ok"⟩, "1000", testTag⟩)
    (testStages (bytesOf (envelopeJson ⟨⟨"ok"⟩, "1000", testTag⟩)) "1000")
    testHmacSha256 testEnv testPayload
    (bytesOf "data") (bytesOf "data") (bytesOf "data") (bytesOf "key")
    (bytesOf (envelopeJson ⟨⟨"ok"⟩, "1000", testTag⟩))
    (bytesOf "\x7b\"data\":\x7b\"value\":\"ok\"\x7d,\"timestamp\":\"1000\"\x7d")
    ⟨"ok"⟩ "1000" testTag 1000 1000
    (by decide) (by decide) (by decide) rfl rfl (by decide) (by decide) (by decide) rfl
    (by decide) (by decide) (by decide) (by decide)

/-- C10: whenever decoding, unwrap and decryption succeed and the HMAC of the
re-serialized `{data, timestamp}` differs from the envelope's `hmac_data`,
`decodePayload` returns the error "integrity verification failed", whatever the
timestamp and whatever the freshness stage `check` would answer (even one that
aborts): the freshness stage is not consulted. -/
theorem decodePayload_integrity_before_freshness {T : Type} [Inhabited T]
    (L : StdLib T) (S : Stages) (payload : HybridPayload) (ct key iv k p byt : Bytes)
    (hct : L.base64Decode payload.EncryptedData = some ct)
    (hkey : L.base64Decode payload.EncryptedKey = some key)
    (hiv : L.base64Decode payload.IV = some iv)
    (hk : S.rsaDecodeFunc key = .returned (.ok k))
    (hp : S.aesDecryptFunc ct k iv = .returned (.ok p))
    (hbyt : L.jsonMarshal (L.jsonUnmarshalWithoutHMAC p).1 = some byt)
    (hne : S.hmacEncodeFunc byt ≠ (L.jsonUnmarshalWithHMAC p).1.Hmac_data) :
    ∀ check : String → String → Outcome Bool,
      decodePayload L (S.withFreshness check) payload =
        .returned (default, some "integrity verification failed") :=
  fun check =>
    decodePayload_integrity_fail L (S.withFreshness check) payload ct key iv k p byt
      hct hkey hiv hk hp hbyt hne

/-- Witness of C10: the envelope of `TestDecodePayload_HmacMismatch`, stale by
far, with a freshness stage that aborts. -/
theorem decodePayload_integrity_before_freshness_witness :
    decodePayload (testLib ⟨⟨"x"⟩, "0", "bad-hmac"⟩)
      ((testStages (bytesOf (envelopeJson ⟨⟨"x"⟩, "0", "bad-hmac"⟩))
        "99999999").withFreshness (fun _ _ => .panicked))
      testPayload = .returned (default, some "integrity verification failed") :=
  decodePayload_integrity_before_freshness (testLib ⟨⟨"x"⟩, "0", "bad-hmac"⟩)
    (testStages (bytesOf (envelopeJson ⟨⟨"x"⟩, "0", "bad-hmac"⟩)) "99999999") testPayload
    (bytesOf "data") (bytesOf "data") (bytesOf "data") (bytesOf "key")
    (bytesOf (envelopeJson ⟨⟨"x"⟩, "0", "bad-hmac"⟩))
    (bytesOf "\x7b\"data\":\x7b\"value\":\"x\"\x7d,\"timestamp\":\"0\"\x7d")
    (by decide) (by decide) (by decide) rfl rfl (by decide) (by decide)
    (fun _ _ => .panicked)

/-- C8, as stated, fails: an envelope that passes the integrity check and
whose timestamp is `"abc"`, or empty, makes `decodePayload` abort. -/
theorem decodePayload_never_aborts_counterexample :
    (∀ byt, hmacEncode testHmacSha256 testEnv byt = testTag) ∧
    decodePayload (testLib ⟨⟨"ok"⟩, "abc", testTag⟩)
      ((testStages (bytesOf (envelopeJson ⟨⟨"ok"⟩, "abc", testTag⟩))
        "1000").withProductionChecks testHmacSha256 testEnv)
      testPayload = .panicked ∧
    decodePayload (testLib ⟨⟨"ok"⟩, "", testTag⟩)
      ((testStages (bytesOf (envelopeJson ⟨⟨"ok"⟩, "", testTag⟩))
        "1000").withProductionChecks testHmacSha256 testEnv)
      testPayload = .panicked :=
  ⟨fun _ => rfl, by decide, by decide⟩

/-- C8 (amended): with the production HMAC and freshness stages,
`decodePayload` ends in one of three ways: a value with no error, an error
with the zero value, or an abort; and it aborts exactly when the key unwrap
stage aborts, or the decryption stage aborts, or the envelope passes the
integrity check and `Atoi` rejects its timestamp or the current time. -/
theorem decodePayload_outcomes {T : Type} [Inhabited T] (L : StdLib T) (S : Stages)
    (hmacSha256 : String → Bytes → Bytes) (Env : EnvConfigs) (payload : HybridPayload) :
    ((∃ d, decodePayload L (S.withProductionChecks hmacSha256 Env) payload =
        .returned (d, none)) ∨
      (∃ e, decodePayload L (S.withProductionChecks hmacSha256 Env) payload =
        .returned (default, some e)) ∨
      decodePayload L (S.withProductionChecks hmacSha256 Env) payload = .panicked) ∧
    (decodePayload L (S.withProductionChecks hmacSha256 Env) payload = .panicked ↔
      ∃ ct key iv,
        L.base64Decode payload.EncryptedData = some ct ∧
        L.base64Decode payload.EncryptedKey = some key ∧
        L.base64Decode payload.IV = some iv ∧
        (S.rsaDecodeFunc key = .panicked ∨
          ∃ k, S.rsaDecodeFunc key = .returned (.ok k) ∧
            (S.aesDecryptFunc ct k iv = .panicked ∨
              ∃ p byt, S.aesDecryptFunc ct k iv = .returned (.ok p) ∧
                L.jsonMarshal (L.jsonUnmarshalWithoutHMAC p).1 = some byt ∧
                hmacEncode hmacSha256 Env byt = (L.jsonUnmarshalWithHMAC p).1.Hmac_data ∧
                (Atoi (L.jsonUnmarshalWithoutHMAC p).1.Timestamp = none ∨
                  Atoi (S.currentTimestampFunc ()) = none)))) := by
  unfold decodePayload
  simp only [Stages.withProductionChecks]
  cases hct : L.base64Decode payload.EncryptedData with
  | none => simp
  | some ct =>
    cases hkey : L.base64Decode payload.EncryptedKey with
    | none => simp
    | some key =>
      cases hiv : L.base64Decode payload.IV with
      | none => simp
      | some iv =>
        cases hk : S.rsaDecodeFunc key with
        | panicked => simp [hk]
        | returned rk =>
          cases rk with
          | error e => simp [hk]
          | ok k =>
            cases hp : S.aesDecryptFunc ct k iv with
            | panicked => simp [hk, hp]
            | returned rp =>
              cases rp with
              | error e => simp [hk, hp]
              | ok p =>
                cases hbyt : L.jsonMarshal (L.jsonUnmarshalWithoutHMAC p).1 with
                | none => simp [hk, hp, hbyt]
                | some byt =>
                  by_cases hmac : hmacEncode hmacSha256 Env byt =
                      (L.jsonUnmarshalWithHMAC p).1.Hmac_data
                  · have hpan := vaildTimestampCheck_panicked_iff
                      (L.jsonUnmarshalWithoutHMAC p).1.Timestamp (S.currentTimestampFunc ())
                    cases hv : vaildTimestampCheck
                        (L.jsonUnmarshalWithoutHMAC p).1.Timestamp
                        (S.currentTimestampFunc ()) with
                    | panicked =>
                      rw [hv] at hpan
                      simp [hk, hp, hbyt, hv, hmac, hpan.mp rfl]
                    | returned v =>
                      rw [hv] at hpan
                      have hno : ¬ (Atoi (L.jsonUnmarshalWithoutHMAC p).1.Timestamp = none ∨
                          Atoi (S.currentTimestampFunc ()) = none) := fun h =>
                        absurd (hpan.mpr h) (by simp)
                      cases v <;> simp [hk, hp, hbyt, hv, hmac, hno]
                  · simp [hk, hp, hbyt, hmac]

/-- C9 does not hold of the code: the errors of both `json.Unmarshal` calls
are dropped. When the plaintext is not JSON, both calls fail and leave the
zero envelope; its re-serialization succeeds and, the production tag being 64
hexadecimal digits and the zero `hmac_data` empty, `decodePayload` reports
"integrity verification failed", not "json parsing failed". -/
theorem decodePayload_malformed_json_integrity_error {T : Type} [Inhabited T]
    (L : StdLib T) (S : Stages) (hmacSha256 : String → Bytes → Bytes) (Env : EnvConfigs)
    (payload : HybridPayload) (ct key iv k p byt : Bytes) (e₁ e₂ : String)
    (hdigest : ∀ secret msg, (hmacSha256 secret msg).length = 32)
    (hct : L.base64Decode payload.EncryptedData = some ct)
    (hkey : L.base64Decode payload.EncryptedKey = some key)
    (hiv : L.base64Decode payload.IV = some iv)
    (hk : S.rsaDecodeFunc key = .returned (.ok k))
    (hp : S.aesDecryptFunc ct k iv = .returned (.ok p))
    (hW : L.jsonUnmarshalWithHMAC p = (⟨default, "", ""⟩, some e₁))
    (hWo : L.jsonUnmarshalWithoutHMAC p = (⟨default, ""⟩, some e₂))
    (hbyt : L.jsonMarshal ⟨default, ""⟩ = some byt) :
    decodePayload L (S.withProductionChecks hmacSha256 Env) payload =
        .returned (default, some "integrity verification failed") ∧
      decodePayload L (S.withProductionChecks hmacSha256 Env) payload ≠
        .returned (default, some "json parsing failed") := by
  have h := decodePayload_integrity_fail L (S.withProductionChecks hmacSha256 Env)
    payload ct key iv k p byt hct hkey hiv hk hp (by rw [hWo]; exact hbyt)
    (by
      rw [hW]
      refine hmacEncode_ne_empty hmacSha256 Env byt (fun hnil => ?_)
      have hlen := hdigest Env.HmacKey byt
      rw [hnil] at hlen
      exact absurd hlen (by decide))
  rw [h]
  refine ⟨rfl, fun hc => ?_⟩
  have hs := congrArg Prod.snd (Outcome.returned.inj hc)
  exact absurd (Option.some.inj hs) (by decide)

/-- Witness of the divergence of C9: the plaintext `[1,2`, on which
`json.Unmarshal` answers "unexpected end of JSON input". -/
theorem decodePayload_malformed_json_integrity_error_witness :
    decodePayload (testLib ⟨⟨"ok"⟩, "1000", testTag⟩)
        ((testStages (bytesOf "[1,2") "1000").withProductionChecks testHmacSha256 testEnv)
        testPayload = .returned (default, some "integrity verification failed") ∧
      decodePayload (testLib ⟨⟨"ok"⟩, "1000", testTag⟩)
        ((testStages (bytesOf "[1,2") "1000").withProductionChecks testHmacSha256 testEnv)
        testPayload ≠ .returned (default, some "json parsing failed") :=
  decodePayload_malformed_json_integrity_error (testLib ⟨⟨"ok"⟩, "1000", testTag⟩)
    (testStages (bytesOf "[1,2") "1000") testHmacSha256 testEnv testPayload
    (bytesOf "data") (bytesOf "data") (bytesOf "data") (bytesOf "key") (bytesOf "[1,2")
    (bytesOf "\x7b\"data\":\x7b\"value\":\"\"\x7d,\"timestamp\":\"\"\x7d")
    "unexpected end of JSON input" "unexpected end of JSON input"
    (fun _ _ => rfl) (by decide) (by decide) (by decide) rfl rfl (by decide) (by decide)
    (by decide)

/-- C11: whenever decoding, unwrap and decryption succeed and the computed
HMAC equals the envelope's `hmac_data` but the freshness stage returns false
on (envelope timestamp, current time), `decodePayload` returns the error
"your request has expired" together with the zero value, that is, no data. -/
theorem decodePayload_expired {T : Type} [Inhabited T] (L : StdLib T) (S : Stages)
    (payload : HybridPayload) (ct key iv k p byt : Bytes)
    (hct : L.base64Decode payload.EncryptedData = some ct)
    (hkey : L.base64Decode payload.EncryptedKey = some key)
    (hiv : L.base64Decode payload.IV = some iv)
    (hk : S.rsaDecodeFunc key = .returned (.ok k))
    (hp : S.aesDecryptFunc ct k iv = .returned (.ok p))
    (hbyt : L.jsonMarshal (L.jsonUnmarshalWithoutHMAC p).1 = some byt)
    (heq : S.hmacEncodeFunc byt = (L.jsonUnmarshalWithHMAC p).1.Hmac_data)
    (hstale : S.vaildTimestampCheckFunc (L.jsonUnmarshalWithoutHMAC p).1.Timestamp
      (S.currentTimestampFunc ()) = .returned false) :
    decodePayload L S payload =
      .returned (default, some "your request has expired") := by
  rw [decodePayload_integrity_ok L S payload ct key iv k p byt hct hkey hiv hk hp hbyt heq,
    hstale]

/-- Witness of C11: the envelope and the stages of `TestDecodePayload_Expired`. -/
theorem decodePayload_expired_witness :
    decodePayload (testLib ⟨⟨"ok"⟩, "0", "good-hmac"⟩)
      ((testStages (bytesOf (envelopeJson ⟨⟨"ok"⟩, "0", "good-hmac"⟩))
        "1000").withFreshness (fun _ _ => .returned false))
      testPayload = .returned (default, some "your request has expired") :=
  decodePayload_expired (testLib ⟨⟨"ok"⟩, "0", "good-hmac"⟩)
    ((testStages (bytesOf (envelopeJson ⟨⟨"ok"⟩, "0", "good-hmac"⟩))
      "1000").withFreshness (fun _ _ => .returned false))
    testPayload
    (bytesOf "data") (bytesOf "data") (bytesOf "data") (bytesOf "key")
    (bytesOf (envelopeJson ⟨⟨"ok"⟩, "0", "good-hmac"⟩))
    (bytesOf "\x7b\"data\":\x7b\"value\":\"ok\"\x7d,\"timestamp\":\"0\"\x7d")
    (by decide) (by decide) (by decide) rfl rfl (by decide) (by decide) rfl

/-- C12: when at least one of the three fields of the payload is not valid
base64, `decodePayload` returns the error "base64 decode failed", the same for
each field, and it does so for all stages `S`, even ones that would abort:
key unwrap, decryption, HMAC and freshness check are not invoked. -/
theorem decodePayload_base64_failed {T : Type} [Inhabited T] (L : StdLib T)
    (payload : HybridPayload)
    (hbad : L.base64Decode payload.EncryptedData = none ∨
      L.base64Decode payload.EncryptedKey = none ∨
      L.base64Decode payload.IV = none) :
    ∀ S : Stages,
      decodePayload L S payload = .returned (default, some "base64 decode failed") := by
  intro S
  unfold decodePayload
  cases hct : L.base64Decode payload.EncryptedData with
  | none => rfl
  | some ct =>
    cases hkey : L.base64Decode payload.EncryptedKey with
    | none => rfl
    | some key =>
      cases hiv : L.base64Decode payload.IV with
      | none => rfl
      | some iv =>
        rw [hct, hkey, hiv] at hbad
        simp at hbad

/-- Witness of C12: the payload of `TestDecodePayload_Base64ErrorOnData`, run
with stages that abort when called. -/
theorem decodePayload_base64_failed_witness :
    decodePayload (testLib ⟨⟨"ok"⟩, "0", "good-hmac"⟩)
      ⟨fun _ => .panicked, fun _ _ _ => .panicked, fun _ => "0", fun _ => "",
        fun _ _ => .panicked⟩
      ⟨"", "", "%%%not-base64%%%"⟩ = .returned (default, some "base64 decode failed") :=
  decodePayload_base64_failed (testLib ⟨⟨"ok"⟩, "0", "good-hmac"⟩)
    ⟨"", "", "%%%not-base64%%%"⟩ (Or.inl (by decide))
    ⟨fun _ => .panicked, fun _ _ _ => .panicked, fun _ => "0", fun _ => "",
      fun _ _ => .panicked⟩

/-- C13: for a payload with valid base64 fields, (1) if the key unwrap stage
returns an error `e`, `decodePayload` returns exactly `e`, whatever the
decryption, HMAC and freshness stages are; (2) if unwrap succeeds and the
decryption stage returns an error `e`, `decodePayload` returns exactly `e`,
whatever the HMAC and freshness stages are. -/
theorem decodePayload_stage_error {T : Type} [Inhabited T] (L : StdLib T)
    (S : Stages) (payload : HybridPayload) (ct key iv : Bytes)
    (hct : L.base64Decode payload.EncryptedData = some ct)
    (hkey : L.base64Decode payload.EncryptedKey = some key)
    (hiv : L.base64Decode payload.IV = some iv) :
    (∀ e, S.rsaDecodeFunc key = .returned (.error e) →
      ∀ (aes : Bytes → Bytes → Bytes → Outcome (Except String Bytes))
        (hmac : Bytes → String) (check : String → String → Outcome Bool),
        decodePayload L ⟨S.rsaDecodeFunc, aes, S.currentTimestampFunc, hmac, check⟩
          payload = .returned (default, some e)) ∧
    (∀ k e, S.rsaDecodeFunc key = .returned (.ok k) →
      S.aesDecryptFunc ct k iv = .returned (.error e) →
      ∀ (hmac : Bytes → String) (check : String → String → Outcome Bool),
        decodePayload L
          ⟨S.rsaDecodeFunc, S.aesDecryptFunc, S.currentTimestampFunc, hmac, check⟩
          payload = .returned (default, some e)) := by
  constructor
  · intro e hk aes hmac check
    unfold decodePayload
    simp only [hct, hkey, hiv, hk]
  · intro k e hk hp hmac check
    unfold decodePayload
    simp only [hct, hkey, hiv, hk, hp]

/-- Witness of C13: the unwrap error of `TestDecodePayload_RsaDecodeError`,
with later stages that abort when called. -/
theorem decodePayload_stage_error_witness :
    decodePayload (testLib ⟨⟨"ok"⟩, "0", "good-hmac"⟩)
      ⟨fun _ => .returned (.error "rsa fail"), fun _ _ _ => .panicked, fun _ => "0",
        fun _ => "", fun _ _ => .panicked⟩
      testPayload = .returned (default, some "rsa fail") :=
  (decodePayload_stage_error (testLib ⟨⟨"ok"⟩, "0", "good-hmac"⟩)
    ⟨fun _ => .returned (.error "rsa fail"),
      fun _ _ _ => .returned (.error "should not reach aesDecrypt"), fun _ => "0",
      fun _ => "", fun _ _ => .returned true⟩
    testPayload (bytesOf "data") (bytesOf "data") (bytesOf "data")
    (by decide) (by decide) (by decide)).1 "rsa fail" rfl
    (fun _ _ _ => .panicked) (fun _ => "") (fun _ _ => .panicked)

/-- C14: whenever `decodePayload` returns a non-nil error, the value returned
with it is the zero value of `T`. -/
theorem decodePayload_error_zero_value {T : Type} [Inhabited T] (L : StdLib T)
    (S : Stages) (payload : HybridPayload) (t : T) (e : String)
    (h : decodePayload L S payload = .returned (t, some e)) : t = default := by
  unfold decodePayload at h
  simp only [] at h
  repeat' split at h
  all_goals first
    | (cases h; rfl)
    | cases h

/-- Witness of C14: a tampered envelope carrying the data `"x"`; the value
returned with the integrity error is the zero value. -/
theorem decodePayload_error_zero_value_witness :
    decodePayload (testLib ⟨⟨"x"⟩, "0", "bad-hmac"⟩)
        (testStages (bytesOf (envelopeJson ⟨⟨"x"⟩, "0", "bad-hmac"⟩)) "0") testPayload =
        .returned (⟨""⟩, some "integrity verification failed") ∧
      (⟨""⟩ : Inner) = default :=
  ⟨by decide,
    decodePayload_error_zero_value (testLib ⟨⟨"x"⟩, "0", "bad-hmac"⟩)
      (testStages (bytesOf (envelopeJson ⟨⟨"x"⟩, "0", "bad-hmac"⟩)) "0") testPayload
      ⟨""⟩ "integrity verification failed" (by decide)⟩

/-! ## Theorems: symmetric decryption and key unwrap -/

/-- With a key that `aes.NewCipher` rejects, `aesDecrypt` returns the key size
error, whatever the ciphertext and the IV are. -/
theorem aesDecrypt_bad_key (cbcDecrypt : Bytes → Bytes → Bytes → Bytes)
    (cipherText key iv : Bytes)
    (hkey : ¬ (key.length = 16 ∨ key.length = 24 ∨ key.length = 32)) :
    aesDecrypt cbcDecrypt cipherText key iv =
      .returned (.error ("crypto/aes: invalid key size " ++ toString key.length)) := by
  unfold aesDecrypt aesNewCipher
  rw [if_neg hkey]

/-- With a key of 16, 24 or 32 bytes, a ciphertext that is not block-aligned
gives the block-alignment error. -/
theorem aesDecrypt_misaligned (cbcDecrypt : Bytes → Bytes → Bytes → Bytes)
    (cipherText key iv : Bytes)
    (hkey : key.length = 16 ∨ key.length = 24 ∨ key.length = 32)
    (hlen : cipherText.length % 16 ≠ 0) :
    aesDecrypt cbcDecrypt cipherText key iv =
      .returned (.error "cipherText is not a multiple of the block size") := by
  unfold aesDecrypt aesNewCipher
  rw [if_pos hkey]
  simp only [if_pos hlen]

/-- With a key of 16, 24 or 32 bytes and a block-aligned ciphertext, an IV
whose length is not 16 makes `aesDecrypt` abort. -/
theorem aesDecrypt_bad_iv (cbcDecrypt : Bytes → Bytes → Bytes → Bytes)
    (cipherText key iv : Bytes)
    (hkey : key.length = 16 ∨ key.length = 24 ∨ key.length = 32)
    (hlen : cipherText.length % 16 = 0) (hiv : iv.length ≠ 16) :
    aesDecrypt cbcDecrypt cipherText key iv = .panicked := by
  unfold aesDecrypt aesNewCipher
  rw [if_pos hkey]
  simp only [hlen, ne_eq, not_true_eq_false, if_false, if_pos hiv]

/-- C15, as stated, fails: with the key `"short"` of `TestAESDecrypt_InvalidKey`
and a ciphertext of 3 bytes, `aesDecrypt` reports the key size error of the
cipher construction, not the block-alignment error. -/
theorem aesDecrypt_alignment_counterexample :
    [1, 2, 3].length % 16 ≠ 0 ∧
    aesDecrypt (fun _ _ c => c) [1, 2, 3] (bytesOf "short") (List.replicate 16 0) =
      .returned (.error "crypto/aes: invalid key size 5") ∧
    aesDecrypt (fun _ _ c => c) [1, 2, 3] (bytesOf "short") (List.replicate 16 0) ≠
      .returned (.error "cipherText is not a multiple of the block size") := by
  refine ⟨by decide, by decide, by decide⟩

/-- C15 (amended): for every key of 16, 24 or 32 bytes, every IV and every
ciphertext whose length is not a multiple of 16, `aesDecrypt` fails with the
error "cipherText is not a multiple of the block size", whatever the IV and
the decryption `cbcDecrypt` are: no decryption is attempted. -/
theorem aesDecrypt_alignment (cipherText key : Bytes)
    (hkey : key.length = 16 ∨ key.length = 24 ∨ key.length = 32)
    (hlen : cipherText.length % 16 ≠ 0) :
    ∀ (cbcDecrypt : Bytes → Bytes → Bytes → Bytes) (iv : Bytes),
      aesDecrypt cbcDecrypt cipherText key iv =
        .returned (.error "cipherText is not a multiple of the block size") :=
  fun cbcDecrypt iv => aesDecrypt_misaligned cbcDecrypt cipherText key iv hkey hlen

/-- Witness of C15 (amended): the key of 32 bytes and the ciphertext of 17
bytes of `TestAESDecrypt_InvalidBlockSize`. -/
theorem aesDecrypt_alignment_witness :
    aesDecrypt (fun _ _ c => c) (List.replicate 17 0) (List.replicate 32 0)
      (List.replicate 16 0) =
      .returned (.error "cipherText is not a multiple of the block size") :=
  aesDecrypt_alignment (List.replicate 17 0) (List.replicate 32 0)
    (Or.inr (Or.inr (by decide))) (by decide) (fun _ _ c => c) (List.replicate 16 0)

/-- C16 does not hold of the code for the IV. For a block-aligned ciphertext,
a key whose length is not 16, 24 or 32 gives an error; but with a usable key
an IV whose length is not 16 makes `aesDecrypt` abort inside
`cipher.NewCBCDecrypter` instead of returning an error. -/
theorem aesDecrypt_unusable_key_or_iv (cbcDecrypt : Bytes → Bytes → Bytes → Bytes)
    (cipherText key iv : Bytes) (hlen : cipherText.length % 16 = 0) :
    (¬ (key.length = 16 ∨ key.length = 24 ∨ key.length = 32) →
      ∃ e, aesDecrypt cbcDecrypt cipherText key iv = .returned (.error e)) ∧
    ((key.length = 16 ∨ key.length = 24 ∨ key.length = 32) → iv.length ≠ 16 →
      aesDecrypt cbcDecrypt cipherText key iv = .panicked) :=
  ⟨fun hkey => ⟨_, aesDecrypt_bad_key cbcDecrypt cipherText key iv hkey⟩,
    fun hkey hiv => aesDecrypt_bad_iv cbcDecrypt cipherText key iv hkey hlen hiv⟩

/-- Witness of the divergence of C16: a key of 16 bytes, one block of
ciphertext and the 4-byte IV `"data"`. -/
theorem aesDecrypt_unusable_key_or_iv_witness :
    aesDecrypt (fun _ _ c => c) (List.replicate 16 0) (List.replicate 16 0)
      (bytesOf "data") = .panicked :=
  (aesDecrypt_unusable_key_or_iv (fun _ _ c => c) (List.replicate 16 0)
    (List.replicate 16 0) (bytesOf "data") (by decide)).2 (Or.inl (by decide))
    (by decide)

/-- C17: under a private key that is configured validly (a PEM block that
parses to an RSA key), for any two wrapped-key inputs on which OAEP decryption
fails, with whatever error texts, `rsaDecode` returns the same error
"don't decode rsa Data". -/
theorem rsaDecode_generic_error (R : RsaLib) (Env : EnvConfigs)
    (block spkiKey json₁ json₂ : Bytes) (e₁ e₂ : String)
    (hpem : R.pemDecode Env.PrivateKey = some block)
    (hparse : R.parsePKCS8PrivateKey block = .ok (.rsa spkiKey))
    (h₁ : R.decryptOAEP spkiKey json₁ = .error e₁)
    (h₂ : R.decryptOAEP spkiKey json₂ = .error e₂) :
    rsaDecode R Env json₁ = .returned (.error "don't decode rsa Data") ∧
    rsaDecode R Env json₂ = .returned (.error "don't decode rsa Data") ∧
    rsaDecode R Env json₁ = rsaDecode R Env json₂ := by
  have a₁ : rsaDecode R Env json₁ = .returned (.error "don't decode rsa Data") := by
    unfold rsaDecode
    simp only [hpem, hparse, h₁]
  have a₂ : rsaDecode R Env json₂ = .returned (.error "don't decode rsa Data") := by
    unfold rsaDecode
    simp only [hpem, hparse, h₂]
  exact ⟨a₁, a₂, a₁.trans a₂.symm⟩

/-- Witness of C17: the input of `TestRSADecode_InvalidCipher` and the empty
input, which fail with different texts in the stand-in library. -/
theorem rsaDecode_generic_error_witness :
    rsaDecode testRsaLib testRsaEnv (bytesOf "not-a-valid-ciphertext") =
        .returned (.error "don't decode rsa Data") ∧
      rsaDecode testRsaLib testRsaEnv [] = .returned (.error "don't decode rsa Data") ∧
      rsaDecode testRsaLib testRsaEnv (bytesOf "not-a-valid-ciphertext") =
        rsaDecode testRsaLib testRsaEnv [] :=
  rsaDecode_generic_error testRsaLib testRsaEnv (bytesOf "PRIVATE KEY")
    (bytesOf "PRIVATE KEY") (bytesOf "not-a-valid-ciphertext") []
    "crypto/rsa: message too long" "crypto/rsa: decryption error"
    (by decide) (by decide) (by decide) (by decide)

/-- C19, as stated, fails: with current time `2^63 - 1` and original `-1` the
exact difference is `2^63 > 300000`, the 64-bit subtraction wraps to `-2^63`
and the check returns true; likewise for the original `-2^63` at the current
time `1700000000000`. -/
theorem vaildTimestampCheck_wrap_counterexample :
    Atoi "9223372036854775807" = some 9223372036854775807 ∧
    Atoi "-1" = some (-1) ∧
    (9223372036854775807 : Int) - (-1) > 300000 ∧
    vaildTimestampCheck "-1" "9223372036854775807" = .returned true ∧
    Atoi "-9223372036854775808" = some (-9223372036854775808) ∧
    Atoi "1700000000000" = some 1700000000000 ∧
    (1700000000000 : Int) - (-9223372036854775808) > 300000 ∧
    vaildTimestampCheck "-9223372036854775808" "1700000000000" = .returned true := by
  refine ⟨by decide, by decide, by decide, by decide, by decide, by decide, by decide,
    by decide⟩

/-- C19 (amended): for timestamp strings that `Atoi` parses to the 64-bit
integers `original` and `current`, `vaildTimestampCheck` returns false
whenever the exact difference `current - original` exceeds 300000 and is
below `2^63`; when the exact difference is `2^63` or more, the 64-bit
subtraction wraps to a negative number and the check returns true. -/
theorem vaildTimestampCheck_exact_difference (originTimestamp currentTimestamp : String)
    (original current : Int)
    (ho : Atoi originTimestamp = some original)
    (hc : Atoi currentTimestamp = some current) :
    (300000 < current - original → current - original < 2 ^ 63 →
      vaildTimestampCheck originTimestamp currentTimestamp = .returned false) ∧
    (2 ^ 63 ≤ current - original →
      vaildTimestampCheck originTimestamp currentTimestamp = .returned true) := by
  have hor := Atoi_range originTimestamp original ho
  have hcr := Atoi_range currentTimestamp current hc
  constructor
  · intro hgt hlt
    rw [vaildTimestampCheck_of_Atoi _ _ _ _ ho hc (by omega) hlt]
    simp only [decide_eq_false_iff_not, Outcome.returned.injEq]
    omega
  · intro hge
    unfold vaildTimestampCheck
    simp only [ho, hc]
    have hw : wrapInt64 (current - original) = current - original - 2 ^ 64 := by
      unfold wrapInt64
      omega
    rw [hw, if_neg (by omega)]

/-- Witness of C19 (amended): an envelope 300001 ms old at a current time of
1700000000000 is rejected. -/
theorem vaildTimestampCheck_exact_difference_witness :
    vaildTimestampCheck "1699999699999" "1700000000000" = .returned false :=
  (vaildTimestampCheck_exact_difference "1699999699999" "1700000000000"
    1699999699999 1700000000000 (by decide) (by decide)).1 (by decide) (by decide)

/-! ## Theorems: HTTP handlers -/

/-- The reply to an engine answer with a status other than 200 that
`WriteHeader` accepts, by whether the decoded output holds a string under
`"error"`. -/
theorem rpcReply_not_200 (E : HandlerEnv) (out : String) (status : Int)
    (hs : status ≠ 200) (hlo : 100 ≤ status) (hhi : status ≤ 999) :
    rpcReply E out status =
      match E.resultjsonError out with
      | none =>
        ([.headerAdd "Content-type" "application/json", .writeHeader status], .panicked)
      | some _ =>
        ([.headerAdd "Content-type" "application/json", .writeHeader status,
          .write "an unknown error occurred"], .returned ()) := by
  unfold rpcReply
  rw [if_neg hs, if_neg (by omega)]

/-- The reply to an engine answer with a status that `WriteHeader` rejects:
the handler aborts in `WriteHeader`. -/
theorem rpcReply_invalid_status (E : HandlerEnv) (out : String) (status : Int)
    (hbad : status < 100 ∨ 999 < status) :
    rpcReply E out status =
      ([.headerAdd "Content-type" "application/json"], .panicked) := by
  unfold rpcReply
  rw [if_neg (by omega), if_pos hbad]

/-- C18, as stated, fails: in encrypted mode a request whose `data` field is
not base64 and a request whose wrapped key is rejected both get status 500,
but the bodies are the texts of the two errors and differ. -/
theorem decode_failure_response_counterexample :
    sync testRsaEnv (testHandlerEnv "" 200) "bad-base64" =
      ([.writeHeader 500, .write "base64 decode failed"], .returned ()) ∧
    sync testRsaEnv (testHandlerEnv "" 200) "good-base64" =
      ([.writeHeader 500, .write "don't decode rsa Data"], .returned ()) ∧
    responseStatus (sync testRsaEnv (testHandlerEnv "" 200) "bad-base64").1 =
      responseStatus (sync testRsaEnv (testHandlerEnv "" 200) "good-base64").1 ∧
    responseBody (sync testRsaEnv (testHandlerEnv "" 200) "bad-base64").1 ≠
      responseBody (sync testRsaEnv (testHandlerEnv "" 200) "good-base64").1 := by
  refine ⟨by decide, by decide, by decide, by decide⟩

/-- C18 (amended): in encrypted mode, when the payload decoder returns an
error `e`, each of `sync`, `copy` and `bucketList` answers with status 500 and
a body that is the text of `e`, and makes no call on the engine. The status is
the same whichever stage failed; the body is the error of that stage. -/
theorem decode_failure_response (Env : EnvConfigs) (E : HandlerEnv) (body : String)
    (henc : Env.IsEncryption = "true") :
    (∀ cfg e, E.decodeSyncConfig (E.decodeHybridPayloadBody body) = .returned (cfg, some e) →
      sync Env E body = ([.writeHeader 500, .write e], .returned ()) ∧
      copy Env E body = ([.writeHeader 500, .write e], .returned ())) ∧
    (∀ cfg e,
      E.decodeStorageConfig (E.decodeHybridPayloadBody body) = .returned (cfg, some e) →
      bucketList Env E body = ([.writeHeader 500, .write e], .returned ())) := by
  constructor
  · intro cfg e h
    have hr : requestSyncConfig Env E body = .returned (cfg, some e) := by
      unfold requestSyncConfig
      rw [if_pos henc]
      exact h
    constructor
    · unfold sync; rw [hr]
    · unfold copy; rw [hr]
  · intro cfg e h
    have hr : requestStorageConfig Env E body = .returned (cfg, some e) := by
      unfold requestStorageConfig
      rw [if_pos henc]
      exact h
    unfold bucketList; rw [hr]

/-- Witness of C18 (amended): the request with a field that is not base64. -/
theorem decode_failure_response_witness :
    sync testRsaEnv (testHandlerEnv "" 200) "bad-base64" =
        ([.writeHeader 500, .write "base64 decode failed"], .returned ()) ∧
      copy testRsaEnv (testHandlerEnv "" 200) "bad-base64" =
        ([.writeHeader 500, .write "base64 decode failed"], .returned ()) :=
  (decode_failure_response testRsaEnv (testHandlerEnv "" 200) "bad-base64" rfl).1
    default "base64 decode failed" (by decide)

/-- C20 does not hold of the code. For an engine answer `(out, status)` with a
status other than 200, each of `sync`, `copy` and `bucketList` behaves as
follows. With a status from 100 to 999 it writes the status, and then the body
"an unknown error occurred" only when the decoded output holds a string under
`"error"`; when it does not (output that is not JSON, or without a string
`"error"` field) the handler aborts after `WriteHeader` and writes no body.
With a status below 100 or above 999 the handler aborts in `WriteHeader`. -/
theorem rpc_error_reply (Env : EnvConfigs) (E : HandlerEnv) (body : String) :
    (∀ cfg req, requestSyncConfig Env E body = .returned (cfg, none) →
      E.marshalSyncRequest (syncRequestOf cfg) = .ok req →
      (E.rcloneRPC "sync/sync" req).2 ≠ 200 →
      ((E.rcloneRPC "sync/sync" req).2 < 100 ∨ 999 < (E.rcloneRPC "sync/sync" req).2 →
        sync Env E body =
          ([.rcloneInitialize, .rcloneRPC "sync/sync" req,
            .headerAdd "Content-type" "application/json"], .panicked)) ∧
      (100 ≤ (E.rcloneRPC "sync/sync" req).2 → (E.rcloneRPC "sync/sync" req).2 ≤ 999 →
        (∀ e, E.resultjsonError (E.rcloneRPC "sync/sync" req).1 = some e →
          sync Env E body =
            ([.rcloneInitialize, .rcloneRPC "sync/sync" req,
              .headerAdd "Content-type" "application/json",
              .writeHeader (E.rcloneRPC "sync/sync" req).2,
              .write "an unknown error occurred"], .returned ())) ∧
        (E.resultjsonError (E.rcloneRPC "sync/sync" req).1 = none →
          sync Env E body =
            ([.rcloneInitialize, .rcloneRPC "sync/sync" req,
              .headerAdd "Content-type" "application/json",
              .writeHeader (E.rcloneRPC "sync/sync" req).2], .panicked)))) ∧
    (∀ cfg req, requestSyncConfig Env E body = .returned (cfg, none) →
      E.marshalSyncRequest (syncRequestOf cfg) = .ok req →
      (E.rcloneRPC "sync/copy" req).2 ≠ 200 →
      ((E.rcloneRPC "sync/copy" req).2 < 100 ∨ 999 < (E.rcloneRPC "sync/copy" req).2 →
        copy Env E body =
          ([.rcloneInitialize, .rcloneRPC "sync/copy" req,
            .headerAdd "Content-type" "application/json"], .panicked)) ∧
      (100 ≤ (E.rcloneRPC "sync/copy" req).2 → (E.rcloneRPC "sync/copy" req).2 ≤ 999 →
        (∀ e, E.resultjsonError (E.rcloneRPC "sync/copy" req).1 = some e →
          copy Env E body =
            ([.rcloneInitialize, .rcloneRPC "sync/copy" req,
              .headerAdd "Content-type" "application/json",
              .writeHeader (E.rcloneRPC "sync/copy" req).2,
              .write "an unknown error occurred"], .returned ())) ∧
        (E.resultjsonError (E.rcloneRPC "sync/copy" req).1 = none →
          copy Env E body =
            ([.rcloneInitialize, .rcloneRPC "sync/copy" req,
              .headerAdd "Content-type" "application/json",
              .writeHeader (E.rcloneRPC "sync/copy" req).2], .panicked)))) ∧
    (∀ cfg req, requestStorageConfig Env E body = .returned (cfg, none) →
      E.marshalListRequest (listRequestOf cfg) = .ok req →
      (E.rcloneRPC "operations/list" req).2 ≠ 200 →
      ((E.rcloneRPC "operations/list" req).2 < 100 ∨ 999 < (E.rcloneRPC "operations/list" req).2 →
        bucketList Env E body =
          ([.rcloneInitialize, .rcloneRPC "operations/list" req,
            .headerAdd "Content-type" "application/json"], .panicked)) ∧
      (100 ≤ (E.rcloneRPC "operations/list" req).2 → (E.rcloneRPC "operations/list" req).2 ≤ 999 →
        (∀ e, E.resultjsonError (E.rcloneRPC "operations/list" req).1 = some e →
          bucketList Env E body =
            ([.rcloneInitialize, .rcloneRPC "operations/list" req,
              .headerAdd "Content-type" "application/json",
              .writeHeader (E.rcloneRPC "operations/list" req).2,
              .write "an unknown error occurred"], .returned ())) ∧
        (E.resultjsonError (E.rcloneRPC "operations/list" req).1 = none →
          bucketList Env E body =
            ([.rcloneInitialize, .rcloneRPC "operations/list" req,
              .headerAdd "Content-type" "application/json",
              .writeHeader (E.rcloneRPC "operations/list" req).2], .panicked)))) := by
  refine ⟨?_, ?_, ?_⟩
  · intro cfg req hr hm hs
    constructor
    · intro hbad
      unfold sync
      simp only [hr, hm, rpcReply_invalid_status E _ _ hbad]
    · intro hlo hhi
      constructor
      · intro e he
        unfold sync
        simp only [hr, hm, rpcReply_not_200 E _ _ hs hlo hhi, he]
      · intro he
        unfold sync
        simp only [hr, hm, rpcReply_not_200 E _ _ hs hlo hhi, he]
  · intro cfg req hr hm hs
    constructor
    · intro hbad
      unfold copy
      simp only [hr, hm, rpcReply_invalid_status E _ _ hbad]
    · intro hlo hhi
      constructor
      · intro e he
        unfold copy
        simp only [hr, hm, rpcReply_not_200 E _ _ hs hlo hhi, he]
      · intro he
        unfold copy
        simp only [hr, hm, rpcReply_not_200 E _ _ hs hlo hhi, he]
  · intro cfg req hr hm hs
    constructor
    · intro hbad
      unfold bucketList
      simp only [hr, hm, rpcReply_invalid_status E _ _ hbad]
    · intro hlo hhi
      constructor
      · intro e he
        unfold bucketList
        simp only [hr, hm, rpcReply_not_200 E _ _ hs hlo hhi, he]
      · intro he
        unfold bucketList
        simp only [hr, hm, rpcReply_not_200 E _ _ hs hlo hhi, he]

/-- Witness of the divergence of C20: the request of
`TestBucketList_RcloneError_Returns500` with the engine output `not json` and
status 500; `bucketList` aborts and writes no body. -/
theorem rpc_error_reply_witness :
    bucketList ⟨"", "", "false"⟩ (testHandlerEnv "not json" 500) "storage-config" =
      ([.rcloneInitialize,
        .rcloneRPC "operations/list"
          ":s3,access_key_id=key,secret_access_key=secret,endpoint=\"http://endpoint\":",
        .headerAdd "Content-type" "application/json", .writeHeader 500], .panicked) :=
  (((rpc_error_reply ⟨"", "", "false"⟩ (testHandlerEnv "not json" 500)
    "storage-config").2.2 testStorageConfig
    ":s3,access_key_id=key,secret_access_key=secret,endpoint=\"http://endpoint\":"
    (by decide) (by decide) (by decide)).2 (by decide) (by decide)).2 (by decide)

/-- When the configuration read from the request comes with an error, `sync`
writes status 500 and the text of the error, and returns. -/
theorem sync_of_config_error (Env : EnvConfigs) (E : HandlerEnv) (body : String)
    (cfg : SyncConfig) (e : String)
    (h : requestSyncConfig Env E body = .returned (cfg, some e)) :
    sync Env E body = ([.writeHeader 500, .write e], .returned ()) := by
  unfold sync
  rw [h]

/-- When the configuration read from the request comes with an error, `copy`
writes status 500 and the text of the error, and returns. -/
theorem copy_of_config_error (Env : EnvConfigs) (E : HandlerEnv) (body : String)
    (cfg : SyncConfig) (e : String)
    (h : requestSyncConfig Env E body = .returned (cfg, some e)) :
    copy Env E body = ([.writeHeader 500, .write e], .returned ()) := by
  unfold copy
  rw [h]

/-- When the configuration read from the request comes with an error,
`bucketList` writes status 500 and the text of the error, and returns. -/
theorem bucketList_of_config_error (Env : EnvConfigs) (E : HandlerEnv) (body : String)
    (cfg : StorageConfig) (e : String)
    (h : requestStorageConfig Env E body = .returned (cfg, some e)) :
    bucketList Env E body = ([.writeHeader 500, .write e], .returned ()) := by
  unfold bucketList
  rw [h]

/-- The configuration of `sync` and `copy` in either mode, when decoding gives
an error. -/
theorem requestSyncConfig_error (Env : EnvConfigs) (E : HandlerEnv) (body : String)
    (cfg : SyncConfig) (e : String)
    (h : (Env.IsEncryption = "true" ∧
        E.decodeSyncConfig (E.decodeHybridPayloadBody body) = .returned (cfg, some e)) ∨
      (Env.IsEncryption ≠ "true" ∧ E.decodeSyncConfigBody body = (cfg, some e))) :
    requestSyncConfig Env E body = .returned (cfg, some e) := by
  unfold requestSyncConfig
  rcases h with ⟨henc, hd⟩ | ⟨henc, hd⟩
  · rw [if_pos henc]
    exact hd
  · rw [if_neg henc, hd]

/-- The configuration of `bucketList` in either mode, when decoding gives an
error. -/
theorem requestStorageConfig_error (Env : EnvConfigs) (E : HandlerEnv) (body : String)
    (cfg : StorageConfig) (e : String)
    (h : (Env.IsEncryption = "true" ∧
        E.decodeStorageConfig (E.decodeHybridPayloadBody body) = .returned (cfg, some e)) ∨
      (Env.IsEncryption ≠ "true" ∧ E.decodeStorageConfigBody body = (cfg, some e))) :
    requestStorageConfig Env E body = .returned (cfg, some e) := by
  unfold requestStorageConfig
  rcases h with ⟨henc, hd⟩ | ⟨henc, hd⟩
  · rw [if_pos henc]
    exact hd
  · rw [if_neg henc, hd]

/-- The decoder fails on a body that does not begin with a well-formed JSON
value. -/
theorem decoderDecode_no_value {α : Type} [Inhabited α] (syntaxError : String → String)
    (unmarshal : String → α × Option String) (body : String)
    (h : jsonFirstValue body = none) :
    decoderDecode syntaxError unmarshal body = (default, some (syntaxError body)) := by
  unfold decoderDecode
  rw [h]

/-- C21, as stated, fails in plaintext mode: the body made of an empty object
followed by a closing brace is not valid JSON, yet the decoder reads its
first value, the empty object, without error; each handler then initializes
the engine, issues its RPC and answers with status 200. -/
theorem decode_failure_no_engine_call_counterexample :
    jsonValid "\x7b\x7d\x7d" = false ∧
    (testStreamEnv "\x7b\x7d" 200).decodeSyncConfigBody "\x7b\x7d\x7d" = (default, none) ∧
    (testStreamEnv "\x7b\x7d" 200).decodeStorageConfigBody "\x7b\x7d\x7d" =
      (default, none) ∧
    (responseStatus (sync ⟨"", "", "false"⟩ (testStreamEnv "\x7b\x7d" 200)
        "\x7b\x7d\x7d").1 = some 200 ∧
      Event.rcloneInitialize ∈ (sync ⟨"", "", "false"⟩ (testStreamEnv "\x7b\x7d" 200)
        "\x7b\x7d\x7d").1 ∧
      noEngineCall (sync ⟨"", "", "false"⟩ (testStreamEnv "\x7b\x7d" 200)
        "\x7b\x7d\x7d").1 = false) ∧
    (responseStatus (copy ⟨"", "", "false"⟩ (testStreamEnv "\x7b\x7d" 200)
        "\x7b\x7d\x7d").1 = some 200 ∧
      Event.rcloneInitialize ∈ (copy ⟨"", "", "false"⟩ (testStreamEnv "\x7b\x7d" 200)
        "\x7b\x7d\x7d").1 ∧
      noEngineCall (copy ⟨"", "", "false"⟩ (testStreamEnv "\x7b\x7d" 200)
        "\x7b\x7d\x7d").1 = false) ∧
    (bucketList ⟨"", "", "false"⟩ (testStreamEnv "\x7b\x7d" 200) "\x7b\x7d\x7d" =
        ([.rcloneInitialize,
          .rcloneRPC "operations/list"
            ":,access_key_id=,secret_access_key=,endpoint=\"\":",
          .headerAdd "Content-type" "application/json", .writeHeader 200,
          .write "map[]"], .returned ()) ∧
      noEngineCall (bucketList ⟨"", "", "false"⟩ (testStreamEnv "\x7b\x7d" 200)
        "\x7b\x7d\x7d").1 = false) := by
  refine ⟨by decide, by decide, by decide, ⟨by decide, by decide, by decide⟩,
    ⟨by decide, by decide, by decide⟩, by decide, by decide⟩

/-- C21 (amended): for each of `sync`, `copy` and `bucketList`, if the request
cannot be turned into a configuration (in encrypted mode the payload decoder
returns an error `e`; in plaintext mode decoding the body returns an error
`e`, as it does for a body that does not begin with a well-formed JSON
value), the handler responds with status 500, returns, and its calls hold
neither `rcloneInitialize` nor any `rcloneRPC`: they are exactly
`WriteHeader(500)` and the write of the error text. -/
theorem decode_failure_no_engine_call (Env : EnvConfigs) (E : HandlerEnv)
    (body : String) :
    (∀ cfg e,
      ((Env.IsEncryption = "true" ∧
          E.decodeSyncConfig (E.decodeHybridPayloadBody body) = .returned (cfg, some e)) ∨
        (Env.IsEncryption ≠ "true" ∧ E.decodeSyncConfigBody body = (cfg, some e))) →
      (sync Env E body = ([.writeHeader 500, .write e], .returned ()) ∧
        responseStatus (sync Env E body).1 = some 500 ∧
        noEngineCall (sync Env E body).1 = true ∧
        Event.rcloneInitialize ∉ (sync Env E body).1 ∧
        ∀ method input, Event.rcloneRPC method input ∉ (sync Env E body).1) ∧
      (copy Env E body = ([.writeHeader 500, .write e], .returned ()) ∧
        responseStatus (copy Env E body).1 = some 500 ∧
        noEngineCall (copy Env E body).1 = true ∧
        Event.rcloneInitialize ∉ (copy Env E body).1 ∧
        ∀ method input, Event.rcloneRPC method input ∉ (copy Env E body).1)) ∧
    (∀ cfg e,
      ((Env.IsEncryption = "true" ∧
          E.decodeStorageConfig (E.decodeHybridPayloadBody body) = .returned (cfg, some e)) ∨
        (Env.IsEncryption ≠ "true" ∧ E.decodeStorageConfigBody body = (cfg, some e))) →
      bucketList Env E body = ([.writeHeader 500, .write e], .returned ()) ∧
        responseStatus (bucketList Env E body).1 = some 500 ∧
        noEngineCall (bucketList Env E body).1 = true ∧
        Event.rcloneInitialize ∉ (bucketList Env E body).1 ∧
        ∀ method input, Event.rcloneRPC method input ∉ (bucketList Env E body).1) := by
  constructor
  · intro cfg e h
    have hr := requestSyncConfig_error Env E body cfg e h
    have hs := sync_of_config_error Env E body cfg e hr
    have hc := copy_of_config_error Env E body cfg e hr
    rw [hs, hc]
    refine ⟨⟨rfl, rfl, rfl, ?_, ?_⟩, ⟨rfl, rfl, rfl, ?_, ?_⟩⟩ <;> simp
  · intro cfg e h
    have hr := requestStorageConfig_error Env E body cfg e h
    rw [bucketList_of_config_error Env E body cfg e hr]
    refine ⟨rfl, rfl, rfl, ?_, ?_⟩ <;> simp

/-- Witness of C21 (amended): the body `not-json` in plaintext mode
(`TestSync_InvalidJSON_Returns500`, `TestCopy_InvalidJSON_Returns500`), which
does not begin with a JSON value. -/
theorem decode_failure_no_engine_call_witness :
    jsonFirstValue "not-json" = none ∧
      sync ⟨"", "", "false"⟩ (testStreamEnv "" 200) "not-json" =
        ([.writeHeader 500, .write "invalid character"], .returned ()) ∧
      copy ⟨"", "", "false"⟩ (testStreamEnv "" 200) "not-json" =
        ([.writeHeader 500, .write "invalid character"], .returned ()) ∧
      bucketList ⟨"", "", "false"⟩ (testStreamEnv "" 200) "not-json" =
        ([.writeHeader 500, .write "invalid character"], .returned ()) :=
  ⟨by decide,
    ((decode_failure_no_engine_call ⟨"", "", "false"⟩ (testStreamEnv "" 200)
      "not-json").1 default "invalid character" (Or.inr ⟨by decide, by decide⟩)).1.1,
    ((decode_failure_no_engine_call ⟨"", "", "false"⟩ (testStreamEnv "" 200)
      "not-json").1 default "invalid character" (Or.inr ⟨by decide, by decide⟩)).2.1,
    ((decode_failure_no_engine_call ⟨"", "", "false"⟩ (testStreamEnv "" 200)
      "not-json").2 default "invalid character" (Or.inr ⟨by decide, by decide⟩)).1⟩

end Api
